import Mathlib

set_option maxRecDepth 200000

/-!
Verification of the R2P2 protocol engine core (src/r2p2/r2p2-common.c).

The engine is embedded shallowly: bytes are natural numbers, buffers are
records carrying a parsed wire header, the payload bytes written after the
header, and the stored buffer payload size; machine-integer stores truncate
with explicit modular reductions.  The per-thread engine state (pending
client/server pair lists and the object-pool taken flags) is passed
explicitly, and external effects (callbacks, datagram sends, timer
operations) are recorded as an event list.  C assertions are modelled by
returning `none`.
-/

namespace R2p2

/-- Modelled from the spec: maximum payload bytes of a standard packet.
`PAYLOAD_SIZE` is defined in `api-internal.h`, which is not part of the
sources; the spec (section 8, scenario S2) uses 1400. -/
def PAYLOAD_SIZE : Nat := 1400

/-- Modelled from the spec: payload capacity of the first packet of a
multi-packet message.  Defined in `api-internal.h` (absent); the spec
(section 8, scenario S2) uses 256. -/
def MIN_PAYLOAD_SIZE : Nat := 256

/-- Modelled from the spec: size in bytes of `struct r2p2_header` (spec
section 3: seven field bytes, 1-word aligned).  The exact value cancels out
of every claim: stored buffer sizes always add it and payload extraction
always subtracts it. -/
def r2p2HeaderSize : Nat := 8

/-- Modelled from the spec: the fixed sentinel byte `MAGIC` (spec section 3).
Its concrete value is defined in `api-internal.h` (absent) and is irrelevant
to the claims. -/
def MAGIC : Nat := 204

/-- Modelled from the spec: first-packet flag bit `F_FLAG` (spec section 3,
a bit in the one-byte `flags` bitset). -/
def F_FLAG : Nat := 128

/-- Modelled from the spec: last-packet flag bit `L_FLAG` (spec section 3,
a distinct bit of the `flags` bitset). -/
def L_FLAG : Nat := 64

/-- Modelled from the spec: 4-bit message type for requests (spec section 3,
values from `api-internal.h`, absent; concrete values are opaque). -/
def REQUEST_MSG : Nat := 0

/-- Modelled from the spec: 4-bit message type for responses. -/
def RESPONSE_MSG : Nat := 1

/-- Modelled from the spec: 4-bit message type for the ACK of the first
packet of a multi-packet request. -/
def ACK_MSG : Nat := 2

/-- Modelled from the spec: the routing policy used for ACKs and replies
(4-bit, opaque to the engine). -/
def FIXED_ROUTE : Nat := 0

/-- The wire header `struct r2p2_header`: magic, header size, packed
type/policy byte, flags bitset, 16-bit request id, 8-bit packet order. -/
structure R2p2Header where
  magic : Nat
  header_size : Nat
  type_policy : Nat
  flags : Nat
  rid : Nat
  p_order : Nat
  deriving DecidableEq, Repr

/-- A `generic_buffer` as the engine sees it: the parsed header at the
start of the buffer memory, the payload bytes written after the header (in
write order), and the stored payload size (`set_buffer_payload_size`,
header included).  `psize` is metadata and may disagree with
`data.length + r2p2HeaderSize`. -/
structure GBuf where
  hdr : R2p2Header
  data : List Nat
  psize : Nat
  deriving DecidableEq, Repr

/-- `struct r2p2_host_tuple`. -/
structure HostTuple where
  ip : Nat
  port : Nat
  deriving DecidableEq, Repr

/-- `struct r2p2_msg`: a chain of buffers (head first) with the sender
tuple and request id. -/
structure R2p2Msg where
  sender : HostTuple
  req_id : Nat
  bufs : List GBuf
  deriving DecidableEq, Repr

/-- Predicate `is_first` from `api-internal.h`, per spec section 3:
the `F_FLAG` bit of `flags` is set. -/
def is_first (h : R2p2Header) : Prop := h.flags &&& F_FLAG ≠ 0

/-- Predicate `is_last`, per spec section 3: the `L_FLAG` bit is set. -/
def is_last (h : R2p2Header) : Prop := h.flags &&& L_FLAG ≠ 0

/-- The message type: upper nibble of `type_policy`. -/
def msgType (h : R2p2Header) : Nat := h.type_policy >>> 4

/-- The routing policy: lower nibble of `type_policy`. -/
def msgPolicy (h : R2p2Header) : Nat := h.type_policy &&& 15

/-- Predicate `is_response`, per spec section 3: the type is `RESPONSE`
or `ACK`, i.e. the packet is addressed to a client pair. -/
def is_response (h : R2p2Header) : Prop :=
  msgType h = RESPONSE_MSG ∨ msgType h = ACK_MSG

instance (h : R2p2Header) : Decidable (is_first h) := by
  unfold is_first; infer_instance

instance (h : R2p2Header) : Decidable (is_last h) := by
  unfold is_last; infer_instance

instance (h : R2p2Header) : Decidable (is_response h) := by
  unfold is_response; infer_instance

/-- The header written into a fresh buffer by `r2p2_prepare_msg` (lines
273-280 of r2p2-common.c): `magic`, `rid`, `header_size`,
`type_policy = (req_type << 4) | (0x0F & policy)`, `p_order = buffer_cnt`
(one-byte store, hence mod 256), `flags = 0`. -/
def mkHeader (req_type policy req_id buffer_cnt : Nat) : R2p2Header :=
  { magic := MAGIC
    header_size := r2p2HeaderSize
    type_policy := ((req_type <<< 4) ||| (15 &&& policy)) % 256
    flags := 0
    rid := req_id % 65536
    p_order := buffer_cnt % 256 }

/-- The local state of the copy loop of `r2p2_prepare_msg`:
finished buffers in reverse chain order, the buffer currently being
filled (`gb`), and the loop variables `bufferleft`, `is_first`,
`buffer_cnt`, `single_packet_msg`, plus the call parameters. -/
structure PrepState where
  doneRev : List GBuf
  cur : Option GBuf
  bufferleft : Nat
  isFirstBuf : Bool
  buffer_cnt : Nat
  single_packet_msg : Bool
  req_type : Nat
  policy : Nat
  req_id : Nat
  deriving DecidableEq, Repr

/-- Lines 252-281 of r2p2-common.c: allocate a fresh buffer, set the
previous buffer (if any) to its full size (`MIN_PAYLOAD_SIZE` while
`is_first`, else `PAYLOAD_SIZE`, header included), clear `is_first`,
append the new buffer to the chain, pick the new buffer capacity
(`MIN_PAYLOAD_SIZE` for the first buffer of a multi-packet message, else
`PAYLOAD_SIZE`) and write its header. -/
def allocStep (st : PrepState) : PrepState :=
  match st.cur with
  | none =>
      -- first allocation: gb == NULL, is_first stays 1
      { st with
        cur := some { hdr := mkHeader st.req_type st.policy st.req_id st.buffer_cnt
                      data := []
                      psize := 0 }
        buffer_cnt := st.buffer_cnt + 1
        bufferleft :=
          if st.isFirstBuf && !st.single_packet_msg then MIN_PAYLOAD_SIZE
          else PAYLOAD_SIZE }
  | some g =>
      -- set the last buffer to full size, then is_first becomes 0,
      -- so the new capacity is always PAYLOAD_SIZE
      let g' :=
        if st.isFirstBuf then
          { g with psize := MIN_PAYLOAD_SIZE + r2p2HeaderSize }
        else
          { g with psize := PAYLOAD_SIZE + r2p2HeaderSize }
      { st with
        doneRev := g' :: st.doneRev
        isFirstBuf := false
        cur := some { hdr := mkHeader st.req_type st.policy st.req_id st.buffer_cnt
                      data := []
                      psize := 0 }
        buffer_cnt := st.buffer_cnt + 1
        bufferleft := PAYLOAD_SIZE }

/-- The `memcpy` of one chunk (lines 283-288): append the chunk to the
current buffer's payload region and consume capacity. -/
def copyChunk (st : PrepState) (chunk : List Nat) : PrepState :=
  { st with
    cur := st.cur.map (fun g => { g with data := g.data ++ chunk })
    bufferleft := st.bufferleft - chunk.length }

/-- The body of the `while (iov_idx < iovcnt)` loop of `r2p2_prepare_msg`
for a single iovec entry whose unconsumed bytes are `rem`: allocate a
buffer when `bufferleft` is zero, copy
`tocopy = min(bufferleft, iov_len - copied)` bytes, and loop until the
entry is consumed (`copied == iov_len` advances `iov_idx`).  The fuel
counts loop iterations; `rem.length + 1` iterations always suffice because
every allocation leaves a positive capacity, so fuel exhaustion is
unreachable. -/
def fillEntryGo : Nat → PrepState → List Nat → PrepState
  | 0, st, _ => st
  | fuel + 1, st, rem =>
    let st1 := if st.bufferleft = 0 then allocStep st else st
    let tocopy := min st1.bufferleft rem.length
    let st2 := copyChunk st1 (rem.take tocopy)
    if tocopy = rem.length then st2
    else fillEntryGo fuel st2 (rem.drop tocopy)

/-- Process one iovec entry of `r2p2_prepare_msg`. -/
def fillEntry (st : PrepState) (e : List Nat) : PrepState :=
  fillEntryGo (e.length + 1) st e

/-- Process all iovec entries in order (the outer progress of `iov_idx`). -/
def fillAll (st : PrepState) : List (List Nat) → PrepState
  | [] => st
  | e :: es => fillAll (fillEntry st e) es

/-- Lines 300-302: patch the head buffer's header with `F_FLAG` and
overwrite `p_order` with the total buffer count (one-byte store). -/
def patchHead (buffer_cnt : Nat) : List GBuf → List GBuf
  | [] => []
  | g :: gs =>
      { g with hdr := { g.hdr with
                        flags := g.hdr.flags ||| F_FLAG
                        p_order := buffer_cnt % 256 } } :: gs

/-- Lines 303-304: patch the tail buffer's header with `L_FLAG`. -/
def patchTail : List GBuf → List GBuf
  | [] => []
  | [g] => [{ g with hdr := { g.hdr with flags := g.hdr.flags ||| L_FLAG } }]
  | g :: g' :: gs => g :: patchTail (g' :: gs)

/-- The initial loop state of `r2p2_prepare_msg` (lines 235-250): the
total payload is summed and classified against `PAYLOAD_SIZE`, and every
loop variable starts at zero/asserted-empty. -/
def prepInit (iov : List (List Nat)) (req_type policy req_id : Nat) :
    PrepState :=
  { doneRev := []
    cur := none
    bufferleft := 0
    isFirstBuf := true
    buffer_cnt := 0
    single_packet_msg := decide ((iov.map List.length).sum ≤ PAYLOAD_SIZE)
    req_type := req_type
    policy := policy
    req_id := req_id }

/-- The epilogue of `r2p2_prepare_msg` (lines 295-306): set the length of
the last buffer to the bytes actually written
(`PAYLOAD_SIZE + sizeof(header) - bufferleft`), then fix the headers of
the first and the last packet.  When the loop allocated no buffer
(`iovcnt = 0`), `gb` is NULL and the C code dereferences it: modelled as
`none`. -/
def prepFinish (st : PrepState) : Option R2p2Msg :=
  match st.cur with
  | none => none
  | some g =>
    some { sender := { ip := 0, port := 0 }
           req_id := st.req_id
           bufs := patchTail (patchHead st.buffer_cnt
             (({ g with
                 psize := PAYLOAD_SIZE + r2p2HeaderSize - st.bufferleft }
               :: st.doneRev).reverse)) }

/-- `r2p2_prepare_msg` (lines 226-307): split the iovec payload into a
chain of buffers with headers. -/
def r2p2_prepare_msg (iov : List (List Nat))
    (req_type policy req_id : Nat) : Option R2p2Msg :=
  prepFinish (fillAll (prepInit iov req_type policy req_id) iov)

/-- The payload bytes of one buffer as the engine reads them back
(`prepare_to_app_iovec`, lines 186-203): the bytes after the header, with
length `payload_size - sizeof(header)`. -/
def bufPayload (g : GBuf) : List Nat :=
  g.data.take (g.psize - r2p2HeaderSize)

/-- The concatenated payload of a buffer chain in chain order, skipping
the header at the start of each buffer. -/
def msgPayload (m : R2p2Msg) : List Nat :=
  (m.bufs.map bufPayload).flatten

/-- `prepare_to_app_iovec`: the per-buffer payload vector handed to the
application callbacks. -/
def prepare_to_app_iovec (m : R2p2Msg) : List (List Nat) :=
  m.bufs.map bufPayload

/-- The client pair states used by the engine (`R2P2_W_ACK`,
`R2P2_W_RESPONSE`). -/
inductive CPState where
  | W_ACK
  | W_RESPONSE
  deriving DecidableEq, Repr

/-- `struct r2p2_client_pair`: the per-request client-side record.  `id` is
the identity of the pool slot holding the pair (`fixed_obj`); `timer` mirrors
whether `cp->timer` is set.  The application context (callback pointers and
`arg`) is external: callback invocations are recorded as events. -/
structure ClientPair where
  id : Nat
  request : R2p2Msg
  reply : R2p2Msg
  state : CPState
  reply_expected_packets : Nat
  reply_received_packets : Nat
  timer : Bool
  deriving DecidableEq, Repr

/-- `struct r2p2_server_pair`: the per-request server-side record. -/
structure ServerPair where
  id : Nat
  request : R2p2Msg
  reply : R2p2Msg
  request_expected_packets : Nat
  request_received_packets : Nat
  deriving DecidableEq, Repr

/-- The externally visible effects of the engine, in program order:
application callbacks, datagram sends (`buf_list_send` of a buffer chain to
a destination), timer disarms and the router notification. -/
inductive Event where
  | SuccessCb (iov : List (List Nat))
  | ErrorCb (code : Int)
  | TimeoutCb
  | RecvFn (iov : List (List Nat))
  | SendList (bufs : List GBuf) (dest : HostTuple)
  | DisarmTimer
  | RouterNotify
  deriving DecidableEq, Repr

/-- The per-thread engine state: the two pending-pair lists and the taken
slot ids of the two object pools.  `nextId` supplies fresh slot identities;
pool exhaustion (a C assertion) is not represented. -/
structure Engine where
  pending_client_pairs : List ClientPair
  pending_server_pairs : List ServerPair
  takenC : List Nat
  takenS : List Nat
  nextId : Nat
  deriving DecidableEq, Repr

/-- `alloc_client_pair`: take a fresh pool slot and zero the pair. -/
def alloc_client_pair (st : Engine) : ClientPair × Engine :=
  ({ id := st.nextId
     request := { sender := { ip := 0, port := 0 }, req_id := 0, bufs := [] }
     reply := { sender := { ip := 0, port := 0 }, req_id := 0, bufs := [] }
     state := CPState.W_ACK
     reply_expected_packets := 0
     reply_received_packets := 0
     timer := false },
   { st with takenC := st.nextId :: st.takenC, nextId := st.nextId + 1 })

/-- `alloc_server_pair`. -/
def alloc_server_pair (st : Engine) : ServerPair × Engine :=
  ({ id := st.nextId
     request := { sender := { ip := 0, port := 0 }, req_id := 0, bufs := [] }
     reply := { sender := { ip := 0, port := 0 }, req_id := 0, bufs := [] }
     request_expected_packets := 0
     request_received_packets := 0 },
   { st with takenS := st.nextId :: st.takenS, nextId := st.nextId + 1 })

/-- `free_client_pair` / `free_object`: release the pool slot (the buffer
frees and the `on_free` hook have no engine-visible effect). -/
def free_client_pair (st : Engine) (cp : ClientPair) : Engine :=
  { st with takenC := st.takenC.filter (fun i => i ≠ cp.id) }

/-- `free_server_pair`. -/
def free_server_pair (st : Engine) (sp : ServerPair) : Engine :=
  { st with takenS := st.takenS.filter (fun i => i ≠ sp.id) }

/-- `add_to_pending_client_pairs` (list insertion at the head). -/
def add_to_pending_client_pairs (st : Engine) (cp : ClientPair) : Engine :=
  { st with pending_client_pairs := cp :: st.pending_client_pairs }

/-- `add_to_pending_server_pairs`. -/
def add_to_pending_server_pairs (st : Engine) (sp : ServerPair) : Engine :=
  { st with pending_server_pairs := sp :: st.pending_server_pairs }

/-- `remove_from_pending_client_pairs`: unlink the pair's node. -/
def remove_from_pending_client_pairs (st : Engine) (cp : ClientPair) : Engine :=
  { st with pending_client_pairs :=
      st.pending_client_pairs.filter (fun c => c.id ≠ cp.id) }

/-- `remove_from_pending_server_pairs`. -/
def remove_from_pending_server_pairs (st : Engine) (sp : ServerPair) : Engine :=
  { st with pending_server_pairs :=
      st.pending_server_pairs.filter (fun s => s.id ≠ sp.id) }

/-- Write the in-place mutation of a pending client pair back into the
list (C mutates the pair through the pointer held by the list node). -/
def update_pending_client_pair (st : Engine) (cp : ClientPair) : Engine :=
  { st with pending_client_pairs :=
      st.pending_client_pairs.map (fun c => if c.id = cp.id then cp else c) }

/-- Write the in-place mutation of a pending server pair back. -/
def update_pending_server_pair (st : Engine) (sp : ServerPair) : Engine :=
  { st with pending_server_pairs :=
      st.pending_server_pairs.map (fun s => if s.id = sp.id then sp else s) }

/-- `find_in_pending_server_pairs` (lines 149-165): first pending server
pair matching the sender ip, sender port and request id. -/
def find_in_pending_server_pairs (st : Engine) (req_id : Nat)
    (sender : HostTuple) : Option ServerPair :=
  st.pending_server_pairs.find? (fun sp =>
    sp.request.sender.ip = sender.ip ∧
    sp.request.sender.port = sender.port ∧
    sp.request.req_id = req_id)

/-- `find_in_pending_client_pairs` (lines 167-184): first pending client
pair matching the sender port and request id; the ip is not compared
(the FIXME at line 174). -/
def find_in_pending_client_pairs (st : Engine) (req_id : Nat)
    (sender : HostTuple) : Option ClientPair :=
  st.pending_client_pairs.find? (fun cp =>
    cp.request.sender.port = sender.port ∧ cp.request.req_id = req_id)

/-- An inbound datagram as `handle_incoming_pck` sees it: the parsed
header at the front of the buffer and the bytes after it.  The datagram
length `len` is passed separately, as in the C upcall. -/
structure Packet where
  hdr : R2p2Header
  payload : List Nat
  deriving DecidableEq, Repr

/-- The buffer holding an inbound packet, once the engine stores it
(`set_buffer_payload_size(gb, len)`). -/
def packetBuf (pkt : Packet) (len : Nat) : GBuf :=
  { hdr := pkt.hdr, data := pkt.payload, psize := len }

/-- `handle_response` (lines 309-396).  Returns the new engine state and
the emitted events, or `none` when a C assertion fails (a packet received
in `W_ACK` state whose length is not exactly a 3-byte ACK). -/
def handle_response (st : Engine) (pkt : Packet) (len : Nat)
    (source local_host : HostTuple) : Option (Engine × List Event) :=
  let h := pkt.hdr
  match find_in_pending_client_pairs st h.rid local_host with
  | none => some (st, [])    -- free the buffer, return
  | some cp0 =>
    let cp1 := { cp0 with reply := { cp0.reply with sender := source } }
    if cp1.state = CPState.W_RESPONSE then
      let cp2 := { cp1 with reply :=
        { cp1.reply with bufs := cp1.reply.bufs ++ [packetBuf pkt len] } }
      if is_first h then
        let cp3 := { cp2 with
          reply_expected_packets := h.p_order
          reply_received_packets := 1 }
        if ¬ is_last h then
          some (update_pending_client_pair st cp3, [])
        else
          let evT := if cp3.timer then [Event.DisarmTimer] else []
          if cp3.reply_received_packets ≠ cp3.reply_expected_packets then
            some (free_client_pair (remove_from_pending_client_pairs st cp3) cp3,
                  evT ++ [Event.ErrorCb (-1)])
          else
            some (update_pending_client_pair st cp3,
                  evT ++ [Event.SuccessCb (prepare_to_app_iovec cp3.reply)])
      else
        if h.p_order ≠ cp2.reply_received_packets then
          some (free_client_pair (remove_from_pending_client_pairs st cp2) cp2,
                [Event.ErrorCb (-1)])
        else
          let cp3 := { cp2 with
            reply_received_packets := cp2.reply_received_packets + 1 }
          if ¬ is_last h then
            some (update_pending_client_pair st cp3, [])
          else
            let evT := if cp3.timer then [Event.DisarmTimer] else []
            if cp3.reply_received_packets ≠ cp3.reply_expected_packets then
              some (free_client_pair (remove_from_pending_client_pairs st cp3) cp3,
                    evT ++ [Event.ErrorCb (-1)])
            else
              some (update_pending_client_pair st cp3,
                    evT ++ [Event.SuccessCb (prepare_to_app_iovec cp3.reply)])
    else
      -- state is R2P2_W_ACK: the packet must be the 3-byte ACK
      if len ≠ r2p2HeaderSize + 3 then none  -- assert(len == sizeof(hdr) + 3)
      else
        let cp2 := { cp1 with state := CPState.W_RESPONSE }
        some (update_pending_client_pair st cp2,
              [Event.SendList (cp1.request.bufs.drop 1) cp1.reply.sender])

/-- The three-byte ACK body, the bytes of the C string literal `ACK`. -/
def ackPayload : List Nat := [65, 67, 75]

/-- `handle_request` (lines 398-460).  Returns `none` when a C assertion
fails (a non-first packet whose pair is not pending: `assert(sp)`). -/
def handle_request (st : Engine) (pkt : Packet) (len : Nat)
    (source : HostTuple) : Option (Engine × List Event) :=
  let h := pkt.hdr
  let gbuf := packetBuf pkt len
  if is_first h then
    let (sp0, st1) := alloc_server_pair st
    let sp1 := { sp0 with
      request := { sp0.request with sender := source, req_id := h.rid }
      request_expected_packets := h.p_order
      request_received_packets := 1 }
    if ¬ is_last h then
      -- multi-packet request: remember the pair and send the ACK
      let ackEv :=
        match r2p2_prepare_msg [ackPayload] ACK_MSG FIXED_ROUTE h.rid with
        | some m => [Event.SendList m.bufs source]
        | none => []
      let sp2 := { sp1 with
        request := { sp1.request with bufs := sp1.request.bufs ++ [gbuf] } }
      some (add_to_pending_server_pairs st1 sp2, ackEv)
    else
      let sp2 := { sp1 with
        request := { sp1.request with bufs := sp1.request.bufs ++ [gbuf] } }
      if sp2.request_received_packets ≠ sp2.request_expected_packets then
        some (free_server_pair (remove_from_pending_server_pairs st1 sp2) sp2, [])
      else
        some (st1, [Event.RecvFn (prepare_to_app_iovec sp2.request)])
  else
    match find_in_pending_server_pairs st h.rid source with
    | none => none   -- assert(sp)
    | some sp0 =>
      if h.p_order ≠ sp0.request_received_packets then
        some (free_server_pair (remove_from_pending_server_pairs st sp0) sp0, [])
      else
        let sp1 := { sp0 with
          request_received_packets := sp0.request_received_packets + 1 }
        let sp2 := { sp1 with
          request := { sp1.request with bufs := sp1.request.bufs ++ [gbuf] } }
        if ¬ is_last h then
          some (update_pending_server_pair st sp2, [])
        else
          if sp2.request_received_packets ≠ sp2.request_expected_packets then
            some (free_server_pair (remove_from_pending_server_pairs st sp2) sp2, [])
          else
            some (update_pending_server_pair st sp2,
                  [Event.RecvFn (prepare_to_app_iovec sp2.request)])

/-- `handle_incoming_pck` (lines 462-488): assert the length covers the
header (`none` models the failed assertion), then dispatch on the type
nibble.  The magic byte is never examined. -/
def handle_incoming_pck (st : Engine) (pkt : Packet) (len : Nat)
    (source local_host : HostTuple) : Option (Engine × List Event) :=
  if len < r2p2HeaderSize then none   -- assert(len >= sizeof(struct r2p2_header))
  else if is_response pkt.hdr then handle_response st pkt len source local_host
  else handle_request st pkt len source

/-- `timer_triggered` (lines 504-515): a no-op unless the pair's pool slot
is still taken; otherwise fire `timeout_cb`, unlink and free the pair. -/
def timer_triggered (st : Engine) (cp : ClientPair) : Engine × List Event :=
  if cp.id ∈ st.takenC then
    (free_client_pair (remove_from_pending_client_pairs st cp) cp,
     [Event.TimeoutCb])
  else (st, [])

/-- `r2p2_send_response` (lines 520-534): assemble the reply, send the
whole chain to the request's sender, notify the router, unlink and free
the pair.  `none` models the null dereference inside `r2p2_prepare_msg`
when the iovec is empty. -/
def r2p2_send_response (st : Engine) (sp : ServerPair)
    (iov : List (List Nat)) : Option (Engine × List Event) :=
  match r2p2_prepare_msg iov RESPONSE_MSG FIXED_ROUTE sp.request.req_id with
  | none => none
  | some m =>
    some (free_server_pair (remove_from_pending_server_pairs st sp) sp,
          [Event.SendList m.bufs sp.request.sender, Event.RouterNotify])

/-- `r2p2_send_req` (lines 536-569).  `prepare_ok` is the outcome of the
external `prepare_to_send` (transport resource acquisition, which also
records the client's local endpoint in `cp->request.sender` and arms the
timer); `rid` stands for the `rand()` draw.  On `prepare_to_send` failure
the pair is freed silently.  Only the head buffer is transmitted; the rest
of the chain is retained (the LINUX re-chaining branch).  `none` models
the null dereference in `r2p2_prepare_msg` on an empty iovec. -/
def r2p2_send_req (st : Engine) (iov : List (List Nat)) (routing_policy : Nat)
    (destination local_ep : HostTuple) (rid : Nat) (prepare_ok : Bool) :
    Option (Engine × List Event) :=
  let (cp0, st1) := alloc_client_pair st
  if ¬ prepare_ok then
    some (free_client_pair st1 cp0, [])
  else
    match r2p2_prepare_msg iov REQUEST_MSG routing_policy rid with
    | none => none
    | some m =>
      let cp1 := { cp0 with
        request := { m with sender := local_ep }
        timer := true
        state := if m.bufs.length = 1 then CPState.W_RESPONSE
                 else CPState.W_ACK }
      let st2 := add_to_pending_client_pairs st1 cp1
      some (st2, [Event.SendList (m.bufs.take 1) destination])

/-- `r2p2_recv_resp_done` (lines 571-577): unlink and free the pair. -/
def r2p2_recv_resp_done (st : Engine) (cp : ClientPair) : Engine :=
  free_client_pair (remove_from_pending_client_pairs st cp) cp

/-! Ghost state used by the assembler proofs. -/

/-- The capacity of the buffer currently being filled: `MIN_PAYLOAD_SIZE`
for the head buffer of a multi-packet message, otherwise `PAYLOAD_SIZE`
(mirrors the `bufferleft` assignment at lines 268-271). -/
def cap (st : PrepState) : Nat :=
  if st.isFirstBuf && !st.single_packet_msg then MIN_PAYLOAD_SIZE
  else PAYLOAD_SIZE

/-- All payload bytes written so far, in chain order. -/
def copiedBytes (st : PrepState) : List Nat :=
  (st.doneRev.reverse.map GBuf.data).flatten ++
    (match st.cur with
     | some g => g.data
     | none => [])

/-- The headers of the chain so far, in chain order. -/
def hdrsOf (st : PrepState) : List R2p2Header :=
  ((match st.cur with
    | some g => g :: st.doneRev
    | none => st.doneRev).reverse).map GBuf.hdr

/-- The copy-loop invariant of `r2p2_prepare_msg`. -/
structure PrepInv (st : PrepState) : Prop where
  done_sized : ∀ g ∈ st.doneRev, g.psize = r2p2HeaderSize + g.data.length
  cur_cap : ∀ g, st.cur = some g → g.data.length + st.bufferleft = cap st
  none_init : st.cur = none →
    st.bufferleft = 0 ∧ st.doneRev = [] ∧ st.isFirstBuf = true
  first_done : st.isFirstBuf = true → st.doneRev = []
  single_first : st.single_packet_msg = true → st.isFirstBuf = true

@[simp] theorem allocStep_single (st : PrepState) :
    (allocStep st).single_packet_msg = st.single_packet_msg := by
  cases h : st.cur <;> simp [allocStep, h]

@[simp] theorem allocStep_req_type (st : PrepState) :
    (allocStep st).req_type = st.req_type := by
  cases h : st.cur <;> simp [allocStep, h]

@[simp] theorem allocStep_policy (st : PrepState) :
    (allocStep st).policy = st.policy := by
  cases h : st.cur <;> simp [allocStep, h]

@[simp] theorem allocStep_req_id (st : PrepState) :
    (allocStep st).req_id = st.req_id := by
  cases h : st.cur <;> simp [allocStep, h]

@[simp] theorem allocStep_cnt (st : PrepState) :
    (allocStep st).buffer_cnt = st.buffer_cnt + 1 := by
  cases h : st.cur <;> simp [allocStep, h]

theorem allocStep_isSome (st : PrepState) : (allocStep st).cur.isSome := by
  cases h : st.cur <;> simp [allocStep, h]

@[simp] theorem copyChunk_single (st : PrepState) (c : List Nat) :
    (copyChunk st c).single_packet_msg = st.single_packet_msg := rfl

@[simp] theorem copyChunk_req_type (st : PrepState) (c : List Nat) :
    (copyChunk st c).req_type = st.req_type := rfl

@[simp] theorem copyChunk_policy (st : PrepState) (c : List Nat) :
    (copyChunk st c).policy = st.policy := rfl

@[simp] theorem copyChunk_req_id (st : PrepState) (c : List Nat) :
    (copyChunk st c).req_id = st.req_id := rfl

@[simp] theorem copyChunk_cnt (st : PrepState) (c : List Nat) :
    (copyChunk st c).buffer_cnt = st.buffer_cnt := rfl

@[simp] theorem copyChunk_doneRev (st : PrepState) (c : List Nat) :
    (copyChunk st c).doneRev = st.doneRev := rfl

@[simp] theorem copyChunk_isFirstBuf (st : PrepState) (c : List Nat) :
    (copyChunk st c).isFirstBuf = st.isFirstBuf := rfl

theorem fillEntryGo_single (f : Nat) : ∀ (st : PrepState) (rem : List Nat),
    (fillEntryGo f st rem).single_packet_msg = st.single_packet_msg := by
  induction f with
  | zero => intro st rem; rfl
  | succ n ih =>
    intro st rem
    simp only [fillEntryGo]
    by_cases hb : st.bufferleft = 0 <;>
      simp only [hb, if_true, if_false, ite_true, ite_false] <;>
      split <;> simp [ih]

theorem fillEntryGo_req_type (f : Nat) : ∀ (st : PrepState) (rem : List Nat),
    (fillEntryGo f st rem).req_type = st.req_type := by
  induction f with
  | zero => intro st rem; rfl
  | succ n ih =>
    intro st rem
    simp only [fillEntryGo]
    by_cases hb : st.bufferleft = 0 <;>
      simp only [hb, if_true, if_false, ite_true, ite_false] <;>
      split <;> simp [ih]

theorem fillEntryGo_policy (f : Nat) : ∀ (st : PrepState) (rem : List Nat),
    (fillEntryGo f st rem).policy = st.policy := by
  induction f with
  | zero => intro st rem; rfl
  | succ n ih =>
    intro st rem
    simp only [fillEntryGo]
    by_cases hb : st.bufferleft = 0 <;>
      simp only [hb, if_true, if_false, ite_true, ite_false] <;>
      split <;> simp [ih]

theorem fillEntryGo_req_id (f : Nat) : ∀ (st : PrepState) (rem : List Nat),
    (fillEntryGo f st rem).req_id = st.req_id := by
  induction f with
  | zero => intro st rem; rfl
  | succ n ih =>
    intro st rem
    simp only [fillEntryGo]
    by_cases hb : st.bufferleft = 0 <;>
      simp only [hb, if_true, if_false, ite_true, ite_false] <;>
      split <;> simp [ih]

theorem fillEntryGo_zero (st : PrepState) (rem : List Nat) :
    fillEntryGo 0 st rem = st := rfl

theorem fillEntryGo_succ (n : Nat) (st : PrepState) (rem : List Nat) :
    fillEntryGo (n + 1) st rem =
      (if min (if st.bufferleft = 0 then allocStep st else st).bufferleft
            rem.length = rem.length
       then copyChunk (if st.bufferleft = 0 then allocStep st else st)
              (rem.take (min (if st.bufferleft = 0 then allocStep st
                              else st).bufferleft rem.length))
       else fillEntryGo n
              (copyChunk (if st.bufferleft = 0 then allocStep st else st)
                (rem.take (min (if st.bufferleft = 0 then allocStep st
                                else st).bufferleft rem.length)))
              (rem.drop (min (if st.bufferleft = 0 then allocStep st
                              else st).bufferleft rem.length))) := rfl

theorem copiedBytes_copyChunk (st : PrepState) (c : List Nat) (g : GBuf)
    (h : st.cur = some g) :
    copiedBytes (copyChunk st c) = copiedBytes st ++ c := by
  simp [copiedBytes, copyChunk, h, List.append_assoc]

theorem copiedBytes_allocStep (st : PrepState) :
    copiedBytes (allocStep st) = copiedBytes st := by
  cases h : st.cur with
  | none => simp [copiedBytes, allocStep, h]
  | some g =>
    by_cases hf : st.isFirstBuf = true <;>
      simp [copiedBytes, allocStep, h, hf, List.reverse_cons, List.map_append,
            List.flatten_append]

/-- One pass through the head of the copy loop: allocating (when needed)
preserves the invariant and the copied bytes, and leaves a positive
capacity and a current buffer.  Requires at least one byte still to copy;
with that, a full first buffer of a single-packet message is impossible,
which is exactly what keeps the finalized sizes of full buffers honest. -/
theorem prep_step (st st1 : PrepState) (rem : List Nat)
    (hst1 : st1 = if st.bufferleft = 0 then allocStep st else st)
    (hne : rem ≠ []) (hinv : PrepInv st)
    (hsingle : st.single_packet_msg = true →
      (copiedBytes st).length + rem.length ≤ PAYLOAD_SIZE) :
    PrepInv st1 ∧ copiedBytes st1 = copiedBytes st ∧ 0 < st1.bufferleft ∧
    st1.single_packet_msg = st.single_packet_msg ∧ st1.cur.isSome := by
  have hrem : 0 < rem.length := List.length_pos.mpr hne
  by_cases hb : st.bufferleft = 0
  · subst hst1
    simp only [hb, if_true, ite_true]
    cases hc : st.cur with
    | none =>
      obtain ⟨hbl, hdr0, hif⟩ := hinv.none_init hc
      refine ⟨?_, copiedBytes_allocStep st, ?_, allocStep_single st, allocStep_isSome st⟩
      · constructor
        · intro g hg
          simp only [allocStep, hc] at hg
          exact hinv.done_sized g hg
        · intro g hg
          simp only [allocStep, hc, Option.some.injEq] at hg
          subst hg
          simp [allocStep, hc, cap]
        · intro hnone
          simp [allocStep, hc] at hnone
        · intro hfb
          simp only [allocStep, hc] at hfb ⊢
          exact hinv.first_done hfb
        · intro hsp
          simp only [allocStep, hc] at hsp ⊢
          exact hinv.single_first hsp
      · simp only [allocStep, hc]
        split <;> decide
    | some g =>
      have hcc := hinv.cur_cap g hc
      rw [hb, Nat.add_zero] at hcc
      by_cases hfst : st.isFirstBuf = true
      · by_cases hsg : st.single_packet_msg = true
        · -- a full first buffer of a single-packet message cannot happen
          -- while bytes remain: the whole payload fits in PAYLOAD_SIZE
          exfalso
          have hdone := hinv.first_done hfst
          have hcopied : copiedBytes st = g.data := by
            simp [copiedBytes, hdone, hc]
          have hcap : cap st = PAYLOAD_SIZE := by
            simp [cap, hfst, hsg]
          have hle := hsingle hsg
          rw [hcopied] at hle
          rw [hcap] at hcc
          omega
        · have hsg' : st.single_packet_msg = false := by
            simpa using hsg
          have hcap : cap st = MIN_PAYLOAD_SIZE := by
            simp [cap, hfst, hsg']
          rw [hcap] at hcc
          refine ⟨?_, copiedBytes_allocStep st, ?_, allocStep_single st, allocStep_isSome st⟩
          · constructor
            · intro g2 hg2
              simp only [allocStep, hc, hfst, if_true, ite_true, List.mem_cons] at hg2
              rcases hg2 with hg2 | hg2
              · subst hg2; simp [hcc]; omega
              · exact hinv.done_sized g2 hg2
            · intro g2 hg2
              simp only [allocStep, hc, Option.some.injEq] at hg2
              subst hg2
              simp [allocStep, hc, cap]
            · intro hnone
              simp [allocStep, hc] at hnone
            · intro hfb
              simp only [allocStep, hc] at hfb
              exact absurd hfb (by simp)
            · intro hsp
              rw [allocStep_single st] at hsp
              exact absurd hsp (by simp [hsg'])
          · simp only [allocStep, hc]
            decide
      · have hfst' : st.isFirstBuf = false := by simpa using hfst
        have hcap : cap st = PAYLOAD_SIZE := by simp [cap, hfst']
        rw [hcap] at hcc
        refine ⟨?_, copiedBytes_allocStep st, ?_, allocStep_single st, allocStep_isSome st⟩
        · constructor
          · intro g2 hg2
            simp only [allocStep, hc, hfst', if_false, ite_false, List.mem_cons] at hg2
            rcases hg2 with hg2 | hg2
            · subst hg2; simp [hcc]; omega
            · exact hinv.done_sized g2 hg2
          · intro g2 hg2
            simp only [allocStep, hc, Option.some.injEq] at hg2
            subst hg2
            simp [allocStep, hc, cap]
          · intro hnone
            simp [allocStep, hc] at hnone
          · intro hfb
            simp only [allocStep, hc] at hfb
            exact absurd hfb (by simp)
          · intro hsp
            rw [allocStep_single st] at hsp
            have := hinv.single_first hsp
            exact absurd this (by simp [hfst'])
        · simp only [allocStep, hc]
          decide
  · subst hst1
    simp only [hb, if_false, ite_false]
    have hsome : st.cur.isSome := by
      cases hc : st.cur with
      | none => exact absurd (hinv.none_init hc).1 hb
      | some g => simp [hc]
    exact ⟨hinv, by simp, Nat.pos_of_ne_zero hb, by simp, hsome⟩

/-- Main loop invariant: processing one iovec entry with sufficient fuel
preserves the invariant, appends exactly the entry's bytes to the chain,
and leaves a current buffer. -/
theorem fillEntryGo_spec (f : Nat) : ∀ (st : PrepState) (rem : List Nat),
    rem.length < f → rem ≠ [] → PrepInv st →
    (st.single_packet_msg = true →
      (copiedBytes st).length + rem.length ≤ PAYLOAD_SIZE) →
    PrepInv (fillEntryGo f st rem) ∧
    copiedBytes (fillEntryGo f st rem) = copiedBytes st ++ rem ∧
    (fillEntryGo f st rem).cur.isSome := by
  induction f with
  | zero =>
    intro st rem hf
    exact absurd hf (Nat.not_lt_zero _)
  | succ n ih =>
    intro st rem hf hne hinv hsingle
    rw [fillEntryGo_succ]
    set st1 := if st.bufferleft = 0 then allocStep st else st with hst1
    obtain ⟨hinv1, hcb1, hbl1, hsg1, hsome1⟩ :=
      prep_step st st1 rem hst1 hne hinv hsingle
    obtain ⟨g1, hg1⟩ := Option.isSome_iff_exists.mp hsome1
    set tocopy := min st1.bufferleft rem.length with htc
    have hrem : 0 < rem.length := List.length_pos.mpr hne
    have htc_pos : 0 < tocopy := lt_min hbl1 hrem
    have htc_le : tocopy ≤ rem.length := min_le_right _ _
    have htc_bl : tocopy ≤ st1.bufferleft := min_le_left _ _
    have htake : (rem.take tocopy).length = tocopy := by
      simp [List.length_take, Nat.min_eq_left htc_le]
    have hcb2 : copiedBytes (copyChunk st1 (rem.take tocopy))
        = copiedBytes st ++ rem.take tocopy := by
      rw [copiedBytes_copyChunk st1 _ g1 hg1, hcb1]
    have hinv2 : PrepInv (copyChunk st1 (rem.take tocopy)) := by
      constructor
      · intro g hg
        simp only [copyChunk_doneRev] at hg
        exact hinv1.done_sized g hg
      · intro g hg
        simp only [copyChunk, hg1, Option.map_some', Option.some.injEq] at hg
        subst hg
        have := hinv1.cur_cap g1 hg1
        have hcapeq : cap (copyChunk st1 (rem.take tocopy)) = cap st1 := by
          simp [cap, copyChunk]
        rw [hcapeq]
        simp only [List.length_append, htake, copyChunk]
        omega
      · intro hnone
        simp [copyChunk, hg1] at hnone
      · intro hfb
        simp only [copyChunk_isFirstBuf] at hfb
        simp only [copyChunk_doneRev]
        exact hinv1.first_done hfb
      · intro hsp
        simp only [copyChunk_single] at hsp
        simp only [copyChunk_isFirstBuf]
        exact hinv1.single_first hsp
    have hsome2 : (copyChunk st1 (rem.take tocopy)).cur.isSome := by
      simp [copyChunk, hg1]
    by_cases ht : tocopy = rem.length
    · rw [if_pos ht]
      refine ⟨hinv2, ?_, hsome2⟩
      rw [hcb2, ht, List.take_length]
    · rw [if_neg ht]
      have htlt : tocopy < rem.length := lt_of_le_of_ne htc_le ht
      have hdlen : (rem.drop tocopy).length = rem.length - tocopy :=
        List.length_drop _ _
      have hdne : rem.drop tocopy ≠ [] := by
        apply List.ne_nil_of_length_pos
        omega
      have hdf : (rem.drop tocopy).length < n := by omega
      have hsingle2 : (copyChunk st1 (rem.take tocopy)).single_packet_msg = true →
          (copiedBytes (copyChunk st1 (rem.take tocopy))).length
            + (rem.drop tocopy).length ≤ PAYLOAD_SIZE := by
        intro hsp
        rw [copyChunk_single] at hsp
        rw [hsg1] at hsp
        have := hsingle hsp
        rw [hcb2]
        simp only [List.length_append, htake, hdlen]
        omega
      obtain ⟨ihinv, ihcb, ihsome⟩ :=
        ih (copyChunk st1 (rem.take tocopy)) (rem.drop tocopy) hdf hdne hinv2 hsingle2
      refine ⟨ihinv, ?_, ihsome⟩
      rw [ihcb, hcb2, List.append_assoc, List.take_append_drop]

theorem fillEntry_spec (st : PrepState) (e : List Nat)
    (hne : e ≠ []) (hinv : PrepInv st)
    (hsingle : st.single_packet_msg = true →
      (copiedBytes st).length + e.length ≤ PAYLOAD_SIZE) :
    PrepInv (fillEntry st e) ∧
    copiedBytes (fillEntry st e) = copiedBytes st ++ e ∧
    (fillEntry st e).cur.isSome :=
  fillEntryGo_spec (e.length + 1) st e (Nat.lt_succ_self _) hne hinv hsingle

theorem fillAll_spec : ∀ (iovs : List (List Nat)) (st : PrepState),
    (∀ e ∈ iovs, e ≠ []) → PrepInv st →
    (st.single_packet_msg = true →
      (copiedBytes st).length + (iovs.map List.length).sum ≤ PAYLOAD_SIZE) →
    PrepInv (fillAll st iovs) ∧
    copiedBytes (fillAll st iovs) = copiedBytes st ++ iovs.flatten ∧
    (st.cur.isSome → (fillAll st iovs).cur.isSome) ∧
    (iovs ≠ [] → (fillAll st iovs).cur.isSome) := by
  intro iovs
  induction iovs with
  | nil =>
    intro st _ hinv _
    exact ⟨hinv, by simp [fillAll], fun h => h, fun h => absurd rfl h⟩
  | cons e es ihe =>
    intro st hne hinv hsingle
    simp only [fillAll]
    have hene : e ≠ [] := hne e (by simp)
    have hsingle1 : st.single_packet_msg = true →
        (copiedBytes st).length + e.length ≤ PAYLOAD_SIZE := by
      intro hsp
      have := hsingle hsp
      simp only [List.map_cons, List.sum_cons] at this
      omega
    obtain ⟨hinv1, hcb1, hsome1⟩ := fillEntry_spec st e hene hinv hsingle1
    have hsg1 : (fillEntry st e).single_packet_msg = st.single_packet_msg :=
      fillEntryGo_single _ _ _
    have hsingle2 : (fillEntry st e).single_packet_msg = true →
        (copiedBytes (fillEntry st e)).length + (es.map List.length).sum
          ≤ PAYLOAD_SIZE := by
      intro hsp
      rw [hsg1] at hsp
      have := hsingle hsp
      rw [hcb1]
      simp only [List.map_cons, List.sum_cons, List.length_append] at this ⊢
      omega
    obtain ⟨hinv2, hcb2, hkeep2, _⟩ :=
      ihe (fillEntry st e) (fun x hx => hne x (by simp [hx])) hinv1 hsingle2
    refine ⟨hinv2, ?_, fun _ => hkeep2 hsome1, fun _ => hkeep2 hsome1⟩
    rw [hcb2, hcb1]
    simp [List.append_assoc]

theorem fillAll_single (iovs : List (List Nat)) (st : PrepState) :
    (fillAll st iovs).single_packet_msg = st.single_packet_msg := by
  induction iovs generalizing st with
  | nil => rfl
  | cons e es ih =>
    simp only [fillAll]
    rw [ih]
    exact fillEntryGo_single _ _ _

theorem fillAll_req_id (iovs : List (List Nat)) (st : PrepState) :
    (fillAll st iovs).req_id = st.req_id := by
  induction iovs generalizing st with
  | nil => rfl
  | cons e es ih =>
    simp only [fillAll]
    rw [ih]
    exact fillEntryGo_req_id _ _ _

theorem patchHead_map_payload (c : Nat) (l : List GBuf) :
    (patchHead c l).map bufPayload = l.map bufPayload := by
  cases l <;> simp [patchHead, bufPayload]

theorem patchTail_map_payload (l : List GBuf) :
    (patchTail l).map bufPayload = l.map bufPayload := by
  induction l with
  | nil => rfl
  | cons g gs ih =>
    cases gs with
    | nil => simp [patchTail, bufPayload]
    | cons g2 gs2 =>
      simp only [patchTail, List.map_cons]
      rw [← List.map_cons bufPayload g2 gs2, ih]

theorem patchHead_length (c : Nat) (l : List GBuf) :
    (patchHead c l).length = l.length := by
  have := congrArg List.length (patchHead_map_payload c l)
  simpa using this

theorem patchTail_length (l : List GBuf) :
    (patchTail l).length = l.length := by
  have := congrArg List.length (patchTail_map_payload l)
  simpa using this

theorem prepInit_inv (iov : List (List Nat)) (t p r : Nat) :
    PrepInv (prepInit iov t p r) := by
  constructor
  · intro g hg
    simp [prepInit] at hg
  · intro g hg
    simp [prepInit] at hg
  · intro _
    exact ⟨rfl, rfl, rfl⟩
  · intro _
    rfl
  · intro _
    rfl

theorem copiedBytes_prepInit (iov : List (List Nat)) (t p r : Nat) :
    copiedBytes (prepInit iov t p r) = [] := by
  simp [copiedBytes, prepInit]

/-- The functional specification of `r2p2_prepare_msg` on a nonempty iovec
whose entries are all nonempty: it succeeds, the concatenated payload of
the chain equals the input byte-for-byte, and the chain is a single buffer
exactly when the total payload fits in `PAYLOAD_SIZE`. -/
theorem r2p2_prepare_msg_spec (iov : List (List Nat)) (t p r : Nat)
    (hne : iov ≠ []) (hall : ∀ e ∈ iov, e ≠ []) :
    ∃ m, r2p2_prepare_msg iov t p r = some m ∧
      msgPayload m = iov.flatten ∧
      (m.bufs.length = 1 ↔ (iov.map List.length).sum ≤ PAYLOAD_SIZE) ∧
      1 ≤ m.bufs.length := by
  have hsingle0 : (prepInit iov t p r).single_packet_msg = true →
      (copiedBytes (prepInit iov t p r)).length + (iov.map List.length).sum
        ≤ PAYLOAD_SIZE := by
    intro hsp
    rw [copiedBytes_prepInit]
    simp only [List.length_nil, Nat.zero_add]
    exact of_decide_eq_true hsp
  obtain ⟨hinv, hcb, _, hsome⟩ :=
    fillAll_spec iov (prepInit iov t p r) hall (prepInit_inv iov t p r) hsingle0
  rw [copiedBytes_prepInit] at hcb
  simp only [List.nil_append] at hcb
  set st := fillAll (prepInit iov t p r) iov with hstdef
  obtain ⟨g, hg⟩ := Option.isSome_iff_exists.mp (hsome hne)
  have hsg : st.single_packet_msg
      = decide ((iov.map List.length).sum ≤ PAYLOAD_SIZE) := by
    rw [hstdef, fillAll_single]
    rfl
  have hfl : iov.flatten.length = (iov.map List.length).sum := by
    simp
  have hMP : MIN_PAYLOAD_SIZE ≤ PAYLOAD_SIZE := by decide
  have hcap : cap st = PAYLOAD_SIZE := by
    by_cases hsp : st.single_packet_msg = true
    · simp [cap, hsp]
    · have hsp' : st.single_packet_msg = false := by simpa using hsp
      by_cases hif : st.isFirstBuf = true
      · exfalso
        have hdone := hinv.first_done hif
        have hcopy : copiedBytes st = g.data := by
          simp [copiedBytes, hdone, hg]
        have hlen : g.data.length = (iov.map List.length).sum := by
          rw [← hfl, ← hcb, hcopy]
        have hcc := hinv.cur_cap g hg
        have hcapM : cap st = MIN_PAYLOAD_SIZE := by
          simp [cap, hif, hsp']
        rw [hcapM] at hcc
        have htot : ¬ (iov.map List.length).sum ≤ PAYLOAD_SIZE := by
          intro hle
          rw [hsg] at hsp'
          simp [hle] at hsp'
        omega
      · have hif' : st.isFirstBuf = false := by simpa using hif
        simp [cap, hif']
  have hcc := hinv.cur_cap g hg
  rw [hcap] at hcc
  have hfin : r2p2_prepare_msg iov t p r = some
      { sender := { ip := 0, port := 0 }
        req_id := st.req_id
        bufs := patchTail (patchHead st.buffer_cnt
          (({ g with psize := PAYLOAD_SIZE + r2p2HeaderSize - st.bufferleft }
            :: st.doneRev).reverse)) } := by
    rw [r2p2_prepare_msg, ← hstdef]
    simp [prepFinish, hg]
  refine ⟨_, hfin, ?_, ?_, ?_⟩
  · -- payload equality
    have hpl : bufPayload
        { g with psize := PAYLOAD_SIZE + r2p2HeaderSize - st.bufferleft }
          = g.data := by
      simp only [bufPayload]
      have hsub : PAYLOAD_SIZE + r2p2HeaderSize - st.bufferleft - r2p2HeaderSize
          = g.data.length := by omega
      rw [hsub, List.take_length]
    have hdp : ∀ d ∈ st.doneRev.reverse, bufPayload d = d.data := by
      intro d hd
      have := hinv.done_sized d (List.mem_reverse.mp hd)
      simp [bufPayload, this]
    simp only [msgPayload, patchTail_map_payload, patchHead_map_payload,
      List.reverse_cons, List.map_append, List.map_cons, List.map_nil,
      List.flatten_append, hpl]
    rw [List.map_congr_left hdp]
    have : copiedBytes st = (st.doneRev.reverse.map GBuf.data).flatten ++ g.data := by
      simp [copiedBytes, hg]
    rw [← hcb, this]
    simp
  · -- single-buffer characterization
    have hlen : (patchTail (patchHead st.buffer_cnt
        (({ g with psize := PAYLOAD_SIZE + r2p2HeaderSize - st.bufferleft }
          :: st.doneRev).reverse))).length = st.doneRev.length + 1 := by
      rw [patchTail_length, patchHead_length]
      simp
    constructor
    · intro h1
      rw [hlen] at h1
      have hdone : st.doneRev = [] := by
        have : st.doneRev.length = 0 := by omega
        exact List.length_eq_zero.mp this
      have hcopy : copiedBytes st = g.data := by
        simp [copiedBytes, hdone, hg]
      have hlen2 : g.data.length = (iov.map List.length).sum := by
        rw [← hfl, ← hcb, hcopy]
      omega
    · intro hle
      have hsp : st.single_packet_msg = true := by
        rw [hsg]
        exact decide_eq_true hle
      have hif := hinv.single_first hsp
      have hdone := hinv.first_done hif
      rw [hlen, hdone]
      rfl
  · rw [patchTail_length, patchHead_length]
    simp

theorem fillAll_req_type (iovs : List (List Nat)) (st : PrepState) :
    (fillAll st iovs).req_type = st.req_type := by
  induction iovs generalizing st with
  | nil => rfl
  | cons e es ih =>
    simp only [fillAll]
    rw [ih]
    exact fillEntryGo_req_type _ _ _

theorem fillAll_policy (iovs : List (List Nat)) (st : PrepState) :
    (fillAll st iovs).policy = st.policy := by
  induction iovs generalizing st with
  | nil => rfl
  | cons e es ih =>
    simp only [fillAll]
    rw [ih]
    exact fillEntryGo_policy _ _ _

/-- Header bookkeeping invariant: the headers of the chain so far are the
fresh headers of buffers `0, 1, …, buffer_cnt - 1` in order. -/
def HdrInv (st : PrepState) : Prop :=
  hdrsOf st = (List.range st.buffer_cnt).map
    (mkHeader st.req_type st.policy st.req_id)

theorem hdrsOf_allocStep (st : PrepState) :
    hdrsOf (allocStep st) = hdrsOf st
      ++ [mkHeader st.req_type st.policy st.req_id st.buffer_cnt] := by
  cases h : st.cur with
  | none => simp [hdrsOf, allocStep, h]
  | some g =>
    by_cases hf : st.isFirstBuf = true <;>
      simp [hdrsOf, allocStep, h, hf]

theorem hdrsOf_copyChunk (st : PrepState) (c : List Nat) :
    hdrsOf (copyChunk st c) = hdrsOf st := by
  cases h : st.cur <;> simp [hdrsOf, copyChunk, h]

theorem hdrinv_allocStep (st : PrepState) (h : HdrInv st) :
    HdrInv (allocStep st) := by
  unfold HdrInv at *
  rw [hdrsOf_allocStep, allocStep_cnt, allocStep_req_type, allocStep_policy,
    allocStep_req_id, List.range_succ, List.map_append, h]
  simp

theorem hdrinv_copyChunk (st : PrepState) (c : List Nat) (h : HdrInv st) :
    HdrInv (copyChunk st c) := by
  unfold HdrInv at *
  rw [hdrsOf_copyChunk, copyChunk_cnt, copyChunk_req_type, copyChunk_policy,
    copyChunk_req_id]
  exact h

theorem fillEntryGo_hdrinv (f : Nat) : ∀ (st : PrepState) (rem : List Nat),
    HdrInv st → HdrInv (fillEntryGo f st rem) := by
  induction f with
  | zero => intro st rem h; exact h
  | succ n ih =>
    intro st rem h
    rw [fillEntryGo_succ]
    by_cases hb : st.bufferleft = 0
    · simp only [hb, if_true, ite_true]
      have h1 : HdrInv (allocStep st) := hdrinv_allocStep st h
      split
      · exact hdrinv_copyChunk _ _ h1
      · exact ih _ _ (hdrinv_copyChunk _ _ h1)
    · simp only [hb, if_false, ite_false]
      split
      · exact hdrinv_copyChunk _ _ h
      · exact ih _ _ (hdrinv_copyChunk _ _ h)

theorem fillAll_hdrinv (iovs : List (List Nat)) : ∀ (st : PrepState),
    HdrInv st → HdrInv (fillAll st iovs) := by
  induction iovs with
  | nil => intro st h; exact h
  | cons e es ih =>
    intro st h
    simp only [fillAll]
    exact ih _ (fillEntryGo_hdrinv _ _ _ h)

theorem prepInit_hdrinv (iov : List (List Nat)) (t p r : Nat) :
    HdrInv (prepInit iov t p r) := by
  simp [HdrInv, hdrsOf, prepInit]

/-- Header-level version of `patchHead`. -/
def patchHeadH (c : Nat) : List R2p2Header → List R2p2Header
  | [] => []
  | h :: hs => { h with flags := h.flags ||| F_FLAG, p_order := c % 256 } :: hs

/-- Header-level version of `patchTail`. -/
def patchTailH : List R2p2Header → List R2p2Header
  | [] => []
  | [h] => [{ h with flags := h.flags ||| L_FLAG }]
  | h :: h2 :: t => h :: patchTailH (h2 :: t)

theorem map_hdr_patchHead (c : Nat) (l : List GBuf) :
    (patchHead c l).map GBuf.hdr = patchHeadH c (l.map GBuf.hdr) := by
  cases l <;> simp [patchHead, patchHeadH]

theorem map_hdr_patchTail (l : List GBuf) :
    (patchTail l).map GBuf.hdr = patchTailH (l.map GBuf.hdr) := by
  induction l with
  | nil => rfl
  | cons g gs ih =>
    cases gs with
    | nil => simp [patchTail, patchTailH]
    | cons g2 gs2 =>
      simp only [patchTail, List.map_cons]
      rw [ih]
      simp [patchTailH]

theorem patchTailH_length (l : List R2p2Header) :
    (patchTailH l).length = l.length := by
  induction l with
  | nil => rfl
  | cons a t ih =>
    cases t with
    | nil => rfl
    | cons b t2 => simpa [patchTailH] using ih

theorem patchHeadH_length (c : Nat) (l : List R2p2Header) :
    (patchHeadH c l).length = l.length := by
  cases l <;> simp [patchHeadH]

theorem patchTailH_getElem (l : List R2p2Header) (i : Nat)
    (h : i + 1 < l.length) : (patchTailH l)[i]? = l[i]? := by
  induction l generalizing i with
  | nil => simp at h
  | cons a t ih =>
    cases t with
    | nil => simp at h
    | cons b t2 =>
      show (a :: patchTailH (b :: t2))[i]? = (a :: b :: t2)[i]?
      cases i with
      | zero => simp
      | succ j =>
        rw [List.getElem?_cons_succ, List.getElem?_cons_succ]
        exact ih j (by simpa using h)

theorem patchTailH_getLast (l : List R2p2Header) :
    (patchTailH l).getLast? = l.getLast?.map
      (fun h => { h with flags := h.flags ||| L_FLAG }) := by
  induction l with
  | nil => rfl
  | cons a t ih =>
    cases t with
    | nil => rfl
    | cons b t2 =>
      show (a :: patchTailH (b :: t2)).getLast? = _
      have hne : patchTailH (b :: t2) ≠ [] := by
        apply List.ne_nil_of_length_pos
        rw [patchTailH_length]
        simp
      obtain ⟨x, xs, hx⟩ := List.exists_cons_of_ne_nil hne
      rw [hx, List.getLast?_cons_cons, ← hx, ih, List.getLast?_cons_cons]

theorem patchHeadH_getElem_zero (c : Nat) (l : List R2p2Header) :
    (patchHeadH c l)[0]? = l[0]?.map
      (fun h => { h with flags := h.flags ||| F_FLAG, p_order := c % 256 }) := by
  cases l <;> simp [patchHeadH]

theorem patchHeadH_getElem_succ (c : Nat) (l : List R2p2Header) (i : Nat) :
    (patchHeadH c l)[i + 1]? = l[i + 1]? := by
  cases l <;> simp [patchHeadH]

theorem patchHeadH_getLast (c : Nat) (l : List R2p2Header)
    (h : 2 ≤ l.length) : (patchHeadH c l).getLast? = l.getLast? := by
  cases l with
  | nil => simp at h
  | cons a t =>
    cases t with
    | nil => simp at h
    | cons b t2 =>
      show (_ :: b :: t2).getLast? = _
      rw [List.getLast?_cons_cons, List.getLast?_cons_cons]

/-- The headers of an assembled chain: the fresh headers `0 … n-1`, the
head patched with `F_FLAG` and the total count, the tail patched with
`L_FLAG`. -/
theorem r2p2_prepare_msg_headers (iov : List (List Nat)) (t p r : Nat)
    (m : R2p2Msg) (hm : r2p2_prepare_msg iov t p r = some m) :
    m.bufs.map GBuf.hdr =
      patchTailH (patchHeadH m.bufs.length
        ((List.range m.bufs.length).map (mkHeader t p r))) := by
  have hinv : HdrInv (fillAll (prepInit iov t p r) iov) :=
    fillAll_hdrinv iov _ (prepInit_hdrinv iov t p r)
  rw [r2p2_prepare_msg] at hm
  set st := fillAll (prepInit iov t p r) iov with hstdef
  have ht : st.req_type = t := by rw [hstdef, fillAll_req_type]; rfl
  have hp : st.policy = p := by rw [hstdef, fillAll_policy]; rfl
  have hr : st.req_id = r := by rw [hstdef, fillAll_req_id]; rfl
  unfold HdrInv at hinv
  rw [ht, hp, hr] at hinv
  cases hg : st.cur with
  | none => rw [prepFinish, hg] at hm; exact absurd hm (by simp)
  | some g =>
    rw [prepFinish, hg] at hm
    have hbufs : m.bufs = patchTail (patchHead st.buffer_cnt
        (({ g with psize := PAYLOAD_SIZE + r2p2HeaderSize - st.bufferleft }
          :: st.doneRev).reverse)) := by
      have := congrArg R2p2Msg.bufs (Option.some.injEq _ _ ▸ hm :
        ({ sender := { ip := 0, port := 0 }
           req_id := st.req_id
           bufs := patchTail (patchHead st.buffer_cnt
             (({ g with
                 psize := PAYLOAD_SIZE + r2p2HeaderSize - st.bufferleft }
               :: st.doneRev).reverse)) } : R2p2Msg) = m)
      exact this.symm
    have hchain : (({ g with
        psize := PAYLOAD_SIZE + r2p2HeaderSize - st.bufferleft }
          :: st.doneRev).reverse).map GBuf.hdr
        = (List.range st.buffer_cnt).map (mkHeader t p r) := by
      rw [← hinv]
      simp [hdrsOf, hg]
    have hlen : m.bufs.length = st.buffer_cnt := by
      rw [hbufs, patchTail_length, patchHead_length]
      have := congrArg List.length hchain
      simpa using this
    rw [hlen, hbufs, map_hdr_patchTail, map_hdr_patchHead, hchain]

theorem copyChunk_isSome (st : PrepState) (c : List Nat)
    (h : st.cur.isSome) : (copyChunk st c).cur.isSome := by
  cases hc : st.cur with
  | none => rw [hc] at h; exact absurd h (by simp)
  | some g => simp [copyChunk, hc]

theorem fillEntryGo_isSome (f : Nat) : ∀ (st : PrepState) (rem : List Nat),
    st.cur.isSome → (fillEntryGo f st rem).cur.isSome := by
  induction f with
  | zero => intro st rem h; exact h
  | succ n ih =>
    intro st rem h
    rw [fillEntryGo_succ]
    by_cases hb : st.bufferleft = 0
    · simp only [hb, if_true, ite_true]
      split
      · exact copyChunk_isSome _ _ (allocStep_isSome st)
      · exact ih _ _ (copyChunk_isSome _ _ (allocStep_isSome st))
    · simp only [hb, if_false, ite_false]
      split
      · exact copyChunk_isSome _ _ h
      · exact ih _ _ (copyChunk_isSome _ _ h)

theorem fillEntry_mk_isSome (st : PrepState) (e : List Nat)
    (h : st.bufferleft = 0 ∨ st.cur.isSome) : (fillEntry st e).cur.isSome := by
  unfold fillEntry
  rw [fillEntryGo_succ]
  by_cases hb : st.bufferleft = 0
  · simp only [hb, if_true, ite_true]
    split
    · exact copyChunk_isSome _ _ (allocStep_isSome st)
    · exact fillEntryGo_isSome _ _ _ (copyChunk_isSome _ _ (allocStep_isSome st))
  · have hsome : st.cur.isSome := by
      rcases h with h | h
      · exact absurd h hb
      · exact h
    simp only [hb, if_false, ite_false]
    split
    · exact copyChunk_isSome _ _ hsome
    · exact fillEntryGo_isSome _ _ _ (copyChunk_isSome _ _ hsome)

theorem fillAll_isSome (iovs : List (List Nat)) : ∀ (st : PrepState),
    st.cur.isSome → (fillAll st iovs).cur.isSome := by
  induction iovs with
  | nil => intro st h; exact h
  | cons e es ih =>
    intro st h
    simp only [fillAll]
    exact ih _ (fillEntry_mk_isSome st e (Or.inr h))

theorem r2p2_prepare_msg_nil (t p r : Nat) :
    r2p2_prepare_msg [] t p r = none := rfl

theorem r2p2_prepare_msg_isSome (iov : List (List Nat)) (t p r : Nat)
    (hne : iov ≠ []) : (r2p2_prepare_msg iov t p r).isSome := by
  obtain ⟨e, es, he⟩ := List.exists_cons_of_ne_nil hne
  subst he
  rw [r2p2_prepare_msg]
  simp only [fillAll]
  have h1 : (fillEntry (prepInit (e :: es) t p r) e).cur.isSome :=
    fillEntry_mk_isSome _ e (Or.inl rfl)
  have h2 := fillAll_isSome es _ h1
  unfold prepFinish
  cases hc : (fillAll (fillEntry (prepInit (e :: es) t p r) e) es).cur with
  | none => rw [hc] at h2; exact absurd h2 (by simp)
  | some g => simp

/-- Evaluation of the assembler on the pathological input of the C1
counterexample: a first entry of exactly `PAYLOAD_SIZE` bytes followed by
an empty entry.  The empty entry arrives with `bufferleft = 0`, so a
second buffer is allocated; because `is_first` is still set, the head
buffer's stored size is truncated to `MIN_PAYLOAD_SIZE + header`. -/
theorem prepare_cex_eval :
    r2p2_prepare_msg [List.replicate 1400 7, []] REQUEST_MSG 0 5 = some
      { sender := { ip := 0, port := 0 }
        req_id := 5
        bufs := [
          { hdr := { magic := 204, header_size := 8, type_policy := 0,
                     flags := 128, rid := 5, p_order := 2 },
            data := List.replicate 1400 7, psize := 264 },
          { hdr := { magic := 204, header_size := 8, type_policy := 0,
                     flags := 64, rid := 5, p_order := 1 },
            data := [], psize := 8 } ] } := by
  unfold r2p2_prepare_msg
  simp only [fillAll]
  unfold fillEntry
  rw [List.length_replicate, List.length_nil, fillEntryGo_succ, fillEntryGo_succ]
  simp [prepInit, allocStep, copyChunk, mkHeader, prepFinish, patchHead,
    patchTail, List.take_replicate, -List.reduceReplicate, REQUEST_MSG, MAGIC,
    F_FLAG, L_FLAG, PAYLOAD_SIZE, MIN_PAYLOAD_SIZE, r2p2HeaderSize]

/-- Claim C1, counterexample to the claim as stated: the two-entry vector
whose first entry holds exactly `PAYLOAD_SIZE` bytes and whose second
entry is empty satisfies the claim's hypotheses (at least one entry,
total length at most `255 × PAYLOAD_SIZE`), yet the assembled chain's
concatenated payload is not the input: the zero-length trailing entry
forces a second buffer allocation, which (still believing it is sizing
the first packet of a multi-packet message) truncates the head buffer's
stored payload size to `MIN_PAYLOAD_SIZE`, so only 256 of the 1400 bytes
survive. -/
theorem claim_C1_counterexample :
    ([List.replicate 1400 7, ([] : List Nat)] ≠ ([] : List (List Nat))) ∧
    (([List.replicate 1400 7, ([] : List Nat)].map List.length).sum
      ≤ 255 * PAYLOAD_SIZE) ∧
    (r2p2_prepare_msg [List.replicate 1400 7, []] REQUEST_MSG 0 5).map
        msgPayload
      ≠ some ([List.replicate 1400 7, ([] : List Nat)].flatten) := by
  refine ⟨by simp, by simp [PAYLOAD_SIZE, -List.reduceReplicate], ?_⟩
  rw [prepare_cex_eval]
  intro hEq
  have h1 := Option.some.inj hEq
  have h2 := congrArg List.length h1
  simp [msgPayload, bufPayload, List.take_replicate, -List.reduceReplicate,
    r2p2HeaderSize] at h2

/-- Claim C1 (amended: every iovec entry is additionally required to be
nonempty; the counterexample shows the claim fails when a zero-length
entry follows an exactly-full buffer).  For every payload vector with at
least one entry, all entries nonempty, and total length at most
`255 × PAYLOAD_SIZE`, `r2p2_prepare_msg` succeeds and the concatenated
payload bytes of the chain, in chain order and skipping the header at the
start of each buffer, equal the input byte-for-byte. -/
theorem claim_C1 (iov : List (List Nat)) (t p r : Nat)
    (h1 : iov ≠ []) (h2 : ∀ e ∈ iov, e ≠ [])
    (h3 : (iov.map List.length).sum ≤ 255 * PAYLOAD_SIZE) :
    ∃ m, r2p2_prepare_msg iov t p r = some m ∧ msgPayload m = iov.flatten := by
  obtain ⟨m, hm, hp, _, _⟩ := r2p2_prepare_msg_spec iov t p r h1 h2
  exact ⟨m, hm, hp⟩

theorem claim_C1_witness :
    ([[1, 2], [3]] ≠ ([] : List (List Nat))) ∧
    (∃ m, r2p2_prepare_msg [[1, 2], [3]] REQUEST_MSG 0 9 = some m ∧
      msgPayload m = [[1, 2], [3]].flatten) :=
  ⟨by decide,
   claim_C1 [[1, 2], [3]] REQUEST_MSG 0 9 (by decide)
     (by intro e he; fin_cases he <;> decide) (by decide)⟩

/-- Claim C2: in every multi-packet assembly (at least two buffers; at
most 255, the range expressible by the one-byte packet counter, which the
spec's non-goals put out of scope), the head buffer's header has `F_FLAG`
set, `L_FLAG` clear, and `p_order` equal to the total packet count; the
tail buffer's header has `L_FLAG` set; and every intermediate packet at
zero-based chain position `i` has `p_order = i`, its 1-based sequence
number among the packets that follow the head (the spec's "packet
sequence number starting at 1"). -/
theorem claim_C2 (iov : List (List Nat)) (t p r : Nat) (m : R2p2Msg)
    (hm : r2p2_prepare_msg iov t p r = some m)
    (h2 : 2 ≤ m.bufs.length) (h255 : m.bufs.length ≤ 255) :
    (∀ g, m.bufs[0]? = some g →
        is_first g.hdr ∧ ¬ is_last g.hdr ∧ g.hdr.p_order = m.bufs.length) ∧
    (∀ g, m.bufs.getLast? = some g → is_last g.hdr) ∧
    (∀ i g, 0 < i → i + 1 < m.bufs.length → m.bufs[i]? = some g →
        g.hdr.p_order = i) := by
  have H := r2p2_prepare_msg_headers iov t p r m hm
  have hslen : (((List.range m.bufs.length).map (mkHeader t p r))).length
      = m.bufs.length := by simp
  have hXlen : (patchHeadH m.bufs.length
      ((List.range m.bufs.length).map (mkHeader t p r))).length
      = m.bufs.length := by rw [patchHeadH_length, hslen]
  refine ⟨?_, ?_, ?_⟩
  · intro g hg
    have hmap : (m.bufs.map GBuf.hdr)[0]? = some g.hdr := by simp [hg]
    rw [H, patchTailH_getElem _ 0 (by omega), patchHeadH_getElem_zero] at hmap
    have h0 : ((List.range m.bufs.length).map (mkHeader t p r))[0]?
        = some (mkHeader t p r 0) := by
      simp [List.getElem?_range (show 0 < m.bufs.length by omega)]
    rw [h0] at hmap
    simp only [Option.map_some', Option.some.injEq] at hmap
    refine ⟨?_, ?_, ?_⟩
    · rw [← hmap]
      simp only [is_first, mkHeader]
      decide
    · rw [← hmap]
      simp only [is_last, mkHeader]
      decide
    · rw [← hmap]
      simp only [mkHeader]
      exact Nat.mod_eq_of_lt (by omega)
  · intro g hg
    have hmap : (m.bufs.map GBuf.hdr).getLast? = some g.hdr := by
      rw [List.getLast?_map, hg]
      rfl
    rw [H, patchTailH_getLast, patchHeadH_getLast _ _ (by omega),
      List.getLast?_map] at hmap
    have hr : (List.range m.bufs.length).getLast?
        = some (m.bufs.length - 1) := by
      have hn : m.bufs.length = (m.bufs.length - 1) + 1 := by omega
      rw [hn, List.range_succ, List.getLast?_concat]
      simp
    rw [hr] at hmap
    simp only [Option.map_some', Option.some.injEq] at hmap
    rw [← hmap]
    simp only [is_last, mkHeader]
    decide
  · intro i g hi0 hi1 hg
    have hmap : (m.bufs.map GBuf.hdr)[i]? = some g.hdr := by simp [hg]
    rw [H, patchTailH_getElem _ i (by omega)] at hmap
    cases i with
    | zero => omega
    | succ j =>
      rw [patchHeadH_getElem_succ] at hmap
      have hj : ((List.range m.bufs.length).map (mkHeader t p r))[j + 1]?
          = some (mkHeader t p r (j + 1)) := by
        simp [List.getElem?_range (show j + 1 < m.bufs.length by omega)]
      rw [hj] at hmap
      simp only [Option.some.injEq] at hmap
      rw [← hmap]
      simp only [mkHeader]
      exact Nat.mod_eq_of_lt (by omega)

/-- Evaluation of the assembler on a two-entry multi-packet input (total
1401 bytes, one byte over `PAYLOAD_SIZE`): the head packet carries
`MIN_PAYLOAD_SIZE` bytes, the second packet the remainder. -/
theorem prepare_multi_eval :
    r2p2_prepare_msg [List.replicate 256 3, List.replicate 1145 3]
        REQUEST_MSG 0 6 = some
      { sender := { ip := 0, port := 0 }
        req_id := 6
        bufs := [
          { hdr := { magic := 204, header_size := 8, type_policy := 0,
                     flags := 128, rid := 6, p_order := 2 },
            data := List.replicate 256 3, psize := 264 },
          { hdr := { magic := 204, header_size := 8, type_policy := 0,
                     flags := 64, rid := 6, p_order := 1 },
            data := List.replicate 1145 3, psize := 1153 } ] } := by
  unfold r2p2_prepare_msg
  simp only [fillAll]
  unfold fillEntry
  rw [List.length_replicate, List.length_replicate, fillEntryGo_succ,
    fillEntryGo_succ]
  simp [prepInit, allocStep, copyChunk, mkHeader, prepFinish, patchHead,
    patchTail, List.take_replicate, -List.reduceReplicate, REQUEST_MSG, MAGIC,
    F_FLAG, L_FLAG, PAYLOAD_SIZE, MIN_PAYLOAD_SIZE, r2p2HeaderSize]

theorem claim_C2_witness :
    ∃ m, r2p2_prepare_msg [List.replicate 256 3, List.replicate 1145 3]
        REQUEST_MSG 0 6 = some m ∧
      (∀ g, m.bufs[0]? = some g →
          is_first g.hdr ∧ ¬ is_last g.hdr ∧ g.hdr.p_order = m.bufs.length) ∧
      (∀ g, m.bufs.getLast? = some g → is_last g.hdr) ∧
      (∀ i g, 0 < i → i + 1 < m.bufs.length → m.bufs[i]? = some g →
          g.hdr.p_order = i) :=
  ⟨_, prepare_multi_eval,
   claim_C2 [List.replicate 256 3, List.replicate 1145 3] REQUEST_MSG 0 6 _
     prepare_multi_eval (by decide) (by decide)⟩

/-- Claim C10: `r2p2_prepare_msg` requires a nonempty iovec.  With
`iovcnt = 0` the copy loop allocates no buffer and the epilogue
dereferences a null buffer pointer (modelled: `none`); with at least one
entry a buffer always exists.  The crash propagates to `r2p2_send_req`
and `r2p2_send_response`, so their calls carry `iovcnt ≥ 1` as a
precondition. -/
theorem claim_C10 (iov : List (List Nat)) (t p r : Nat)
    (hne : iov ≠ []) :
    r2p2_prepare_msg [] t p r = none ∧
    (r2p2_prepare_msg iov t p r).isSome ∧
    (∀ st pol dest lep rid,
      r2p2_send_req st [] pol dest lep rid true = none) ∧
    (∀ st sp, r2p2_send_response st sp [] = none) := by
  refine ⟨r2p2_prepare_msg_nil t p r, r2p2_prepare_msg_isSome iov t p r hne,
    ?_, ?_⟩
  · intro st pol dest lep rid
    simp [r2p2_send_req, r2p2_prepare_msg_nil]
  · intro st sp
    simp [r2p2_send_response, r2p2_prepare_msg_nil]

theorem claim_C10_witness :
    r2p2_prepare_msg [] 0 0 4 = none ∧
    (r2p2_prepare_msg [[9]] 0 0 4).isSome ∧
    (∀ st pol dest lep rid,
      r2p2_send_req st [] pol dest lep rid true = none) ∧
    (∀ st sp, r2p2_send_response st sp [] = none) :=
  claim_C10 [[9]] 0 0 4 (by decide)

/-- Claim C9: `timer_triggered` fires `timeout_cb`, unlinks and frees the
pair only when the pair's pool slot is still taken; on an already-freed
pair it is a no-op with no callback and no state change. -/
theorem claim_C9 (st : Engine) (cp : ClientPair) :
    (cp.id ∈ st.takenC →
      (timer_triggered st cp).2 = [Event.TimeoutCb] ∧
      (∀ c ∈ (timer_triggered st cp).1.pending_client_pairs, c.id ≠ cp.id) ∧
      cp.id ∉ (timer_triggered st cp).1.takenC) ∧
    (cp.id ∉ st.takenC → timer_triggered st cp = (st, [])) := by
  constructor
  · intro h
    refine ⟨?_, ?_, ?_⟩
    · simp [timer_triggered, h]
    · intro c hc
      simp only [timer_triggered, h, if_pos, free_client_pair,
        remove_from_pending_client_pairs] at hc
      simp only [List.mem_filter] at hc
      simpa using hc.2
    · simp only [timer_triggered, h, if_pos, free_client_pair,
        remove_from_pending_client_pairs]
      simp [List.mem_filter]
  · intro h
    simp [timer_triggered, h]

theorem claim_C9_witness :
    ((timer_triggered
        { pending_client_pairs := [
            { id := 0
              request := { sender := { ip := 0, port := 1 }, req_id := 2
                           bufs := [] }
              reply := { sender := { ip := 0, port := 0 }, req_id := 0
                         bufs := [] }
              state := CPState.W_RESPONSE
              reply_expected_packets := 1
              reply_received_packets := 1
              timer := true }]
          pending_server_pairs := []
          takenC := [0]
          takenS := []
          nextId := 1 }
        { id := 0
          request := { sender := { ip := 0, port := 1 }, req_id := 2
                       bufs := [] }
          reply := { sender := { ip := 0, port := 0 }, req_id := 0, bufs := [] }
          state := CPState.W_RESPONSE
          reply_expected_packets := 1
          reply_received_packets := 1
          timer := true }).2 = [Event.TimeoutCb]) ∧
    (timer_triggered
        { pending_client_pairs := []
          pending_server_pairs := []
          takenC := []
          takenS := []
          nextId := 1 }
        { id := 0
          request := { sender := { ip := 0, port := 1 }, req_id := 2
                       bufs := [] }
          reply := { sender := { ip := 0, port := 0 }, req_id := 0, bufs := [] }
          state := CPState.W_RESPONSE
          reply_expected_packets := 1
          reply_received_packets := 1
          timer := true })
      = ({ pending_client_pairs := []
           pending_server_pairs := []
           takenC := []
           takenS := []
           nextId := 1 }, []) :=
  ⟨((claim_C9 _ _).1 (by decide)).1, (claim_C9 _ _).2 (by decide)⟩

/-- Evaluation of the ACK synthesised by `handle_request` for the first
packet of a multi-packet request: a single buffer holding the three bytes
of the C string literal `ACK`, with type `ACK_MSG`, policy `FIXED_ROUTE`
and both packet flags set. -/
theorem ack_eval (rid : Nat) :
    r2p2_prepare_msg [ackPayload] ACK_MSG FIXED_ROUTE rid = some
      { sender := { ip := 0, port := 0 }
        req_id := rid
        bufs := [
          { hdr := { magic := 204, header_size := 8, type_policy := 32,
                     flags := 192, rid := rid % 65536, p_order := 1 },
            data := [65, 67, 75], psize := 11 } ] } := by
  unfold r2p2_prepare_msg
  simp only [fillAll]
  unfold fillEntry
  rw [show (ackPayload.length : Nat) = 3 from rfl, fillEntryGo_succ]
  simp [prepInit, allocStep, copyChunk, mkHeader, prepFinish, patchHead,
    patchTail, ackPayload, ACK_MSG, FIXED_ROUTE, MAGIC, F_FLAG, L_FLAG,
    PAYLOAD_SIZE, MIN_PAYLOAD_SIZE, r2p2HeaderSize]

/-- Claim C4: on the first packet of a multi-packet request (`F_FLAG` set,
`L_FLAG` clear), `handle_request` allocates a server pair initialised from
the packet, inserts it at the head of the pending-server list, and sends a
single-packet message to the packet's source whose payload is the three
bytes of `ACK`, with message type `ACK_MSG`, routing policy `FIXED_ROUTE`
and the request's rid. -/
theorem claim_C4 (st : Engine) (pkt : Packet) (len : Nat)
    (source : HostTuple) (hfirst : is_first pkt.hdr)
    (hnotlast : ¬ is_last pkt.hdr) (hrid : pkt.hdr.rid < 65536) :
    ∃ sp ackbufs,
      handle_request st pkt len source = some
        ({ st with
           pending_server_pairs := sp :: st.pending_server_pairs
           takenS := st.nextId :: st.takenS
           nextId := st.nextId + 1 },
         [Event.SendList ackbufs source]) ∧
      sp.request.sender = source ∧
      sp.request.req_id = pkt.hdr.rid ∧
      sp.request_expected_packets = pkt.hdr.p_order ∧
      sp.request_received_packets = 1 ∧
      sp.request.bufs = [packetBuf pkt len] ∧
      ackbufs.length = 1 ∧
      (∀ g, ackbufs[0]? = some g →
        bufPayload g = ackPayload ∧
        msgType g.hdr = ACK_MSG ∧
        msgPolicy g.hdr = FIXED_ROUTE ∧
        g.hdr.rid = pkt.hdr.rid ∧
        is_first g.hdr ∧ is_last g.hdr) := by
  refine ⟨{ id := st.nextId
            request := { sender := source, req_id := pkt.hdr.rid
                         bufs := [packetBuf pkt len] }
            reply := { sender := { ip := 0, port := 0 }, req_id := 0
                       bufs := [] }
            request_expected_packets := pkt.hdr.p_order
            request_received_packets := 1 },
    [{ hdr := { magic := 204, header_size := 8, type_policy := 32,
                flags := 192, rid := pkt.hdr.rid % 65536, p_order := 1 }
       data := [65, 67, 75], psize := 11 }],
    ?_, rfl, rfl, rfl, rfl, rfl, rfl, ?_⟩
  · simp only [handle_request, alloc_server_pair,
      add_to_pending_server_pairs, ack_eval]
    simp [hfirst, hnotlast]
  · intro g hg
    simp only [List.getElem?_cons_zero, Option.some.injEq] at hg
    subst hg
    refine ⟨?_, ?_, ?_, ?_, ?_, ?_⟩
    · simp [bufPayload, ackPayload, r2p2HeaderSize]
    · simp [msgType, ACK_MSG]
    · simp only [msgPolicy, FIXED_ROUTE]
      decide
    · simp [Nat.mod_eq_of_lt hrid]
    · simp [is_first, F_FLAG]
    · simp [is_last, L_FLAG]

theorem claim_C4_witness :
    ∃ sp ackbufs,
      handle_request
          { pending_client_pairs := [], pending_server_pairs := []
            takenC := [], takenS := [], nextId := 0 }
          { hdr := { magic := 204, header_size := 8, type_policy := 0,
                     flags := 128, rid := 7, p_order := 3 }
            payload := [1, 2] }
          10 { ip := 8, port := 9 } = some
        ({ pending_client_pairs := [], pending_server_pairs := [sp]
           takenC := [], takenS := [0], nextId := 1 },
         [Event.SendList ackbufs { ip := 8, port := 9 }]) ∧
      sp.request.sender = { ip := 8, port := 9 } ∧
      sp.request.req_id = 7 ∧
      sp.request_expected_packets = 3 ∧
      sp.request_received_packets = 1 ∧
      sp.request.bufs = [packetBuf
        { hdr := { magic := 204, header_size := 8, type_policy := 0,
                   flags := 128, rid := 7, p_order := 3 }
          payload := [1, 2] } 10] ∧
      ackbufs.length = 1 ∧
      (∀ g, ackbufs[0]? = some g →
        bufPayload g = ackPayload ∧
        msgType g.hdr = ACK_MSG ∧
        msgPolicy g.hdr = FIXED_ROUTE ∧
        g.hdr.rid = 7 ∧
        is_first g.hdr ∧ is_last g.hdr) :=
  claim_C4
    { pending_client_pairs := [], pending_server_pairs := []
      takenC := [], takenS := [], nextId := 0 }
    { hdr := { magic := 204, header_size := 8, type_policy := 0,
               flags := 128, rid := 7, p_order := 3 }
      payload := [1, 2] }
    10 { ip := 8, port := 9 } (by decide) (by decide) (by decide)

/-- Claim C6, counterexample to the claim as stated: a response packet
whose magic byte differs from `MAGIC` is not dropped: `handle_incoming_pck`
never examines the magic byte, so the packet reaches `handle_response`,
is matched to the pending client pair and (being a complete single-packet
response) triggers the success callback — state changes and a callback
runs, contradicting the claimed silent drop. -/
theorem claim_C6_counterexample :
    (205 : Nat) ≠ MAGIC ∧
    (handle_incoming_pck
        { pending_client_pairs := [
            { id := 0
              request := { sender := { ip := 0, port := 55 }, req_id := 9
                           bufs := [] }
              reply := { sender := { ip := 0, port := 0 }, req_id := 0
                         bufs := [] }
              state := CPState.W_RESPONSE
              reply_expected_packets := 0
              reply_received_packets := 0
              timer := false }]
          pending_server_pairs := []
          takenC := [0], takenS := [], nextId := 1 }
        { hdr := { magic := 205, header_size := 8, type_policy := 16,
                   flags := 192, rid := 9, p_order := 1 }
          payload := [1, 2, 3] }
        11 { ip := 7, port := 8 } { ip := 0, port := 55 }).map
        (fun x => x.2)
      = some [Event.SuccessCb [[1, 2, 3]]] := by
  exact ⟨by decide, by decide⟩

/-- Claim C6 (amended): `handle_incoming_pck` fails its length assertion
(modelled as `none`) on any packet shorter than the header rather than
dropping it silently, and otherwise dispatches on the type nibble alone —
the magic byte is never checked, so a mismatched-magic packet is processed
exactly like any other (the counterexample exhibits one that invokes the
success callback). -/
theorem claim_C6 (st : Engine) (pkt : Packet) (len : Nat)
    (source local_host : HostTuple) :
    (len < r2p2HeaderSize →
      handle_incoming_pck st pkt len source local_host = none) ∧
    (r2p2HeaderSize ≤ len →
      handle_incoming_pck st pkt len source local_host =
        if is_response pkt.hdr then
          handle_response st pkt len source local_host
        else handle_request st pkt len source) := by
  constructor
  · intro h
    simp [handle_incoming_pck, h]
  · intro h
    simp [handle_incoming_pck, Nat.not_lt.mpr h]

theorem claim_C6_witness :
    (handle_incoming_pck
        { pending_client_pairs := [], pending_server_pairs := []
          takenC := [], takenS := [], nextId := 0 }
        { hdr := { magic := 204, header_size := 8, type_policy := 16,
                   flags := 192, rid := 9, p_order := 1 }
          payload := [] }
        3 { ip := 7, port := 8 } { ip := 0, port := 55 } = none) ∧
    (handle_incoming_pck
        { pending_client_pairs := [], pending_server_pairs := []
          takenC := [], takenS := [], nextId := 0 }
        { hdr := { magic := 204, header_size := 8, type_policy := 16,
                   flags := 192, rid := 9, p_order := 1 }
          payload := [1, 2, 3] }
        11 { ip := 7, port := 8 } { ip := 0, port := 55 } =
      handle_response
        { pending_client_pairs := [], pending_server_pairs := []
          takenC := [], takenS := [], nextId := 0 }
        { hdr := { magic := 204, header_size := 8, type_policy := 16,
                   flags := 192, rid := 9, p_order := 1 }
          payload := [1, 2, 3] }
        11 { ip := 7, port := 8 } { ip := 0, port := 55 }) :=
  ⟨(claim_C6
      { pending_client_pairs := [], pending_server_pairs := []
        takenC := [], takenS := [], nextId := 0 }
      { hdr := { magic := 204, header_size := 8, type_policy := 16,
                 flags := 192, rid := 9, p_order := 1 }
        payload := [] }
      3 { ip := 7, port := 8 } { ip := 0, port := 55 }).1 (by decide),
   ((claim_C6
      { pending_client_pairs := [], pending_server_pairs := []
        takenC := [], takenS := [], nextId := 0 }
      { hdr := { magic := 204, header_size := 8, type_policy := 16,
                 flags := 192, rid := 9, p_order := 1 }
        payload := [1, 2, 3] }
      11 { ip := 7, port := 8 } { ip := 0, port := 55 }).2 (by decide)).trans
     (if_pos (by decide))⟩

/-- Claim C7, counterexample to the claim as stated: a client pair whose
reply is already complete (`success_cb` has run, `recv_resp_done` not yet
called) is still in the pending list, so a late duplicate of the
single-packet response is matched to it and processed as a fresh fragment:
the timer is disarmed again and `success_cb` is invoked a second time, now
with the duplicated payload appended — not a silent drop. -/
theorem claim_C7_counterexample :
    (handle_response
        { pending_client_pairs := [
            { id := 0
              request := { sender := { ip := 0, port := 55 }, req_id := 9
                           bufs := [] }
              reply := { sender := { ip := 7, port := 8 }, req_id := 0
                         bufs := [
                           { hdr := { magic := 204, header_size := 8,
                                      type_policy := 16, flags := 192,
                                      rid := 9, p_order := 1 }
                             data := [9], psize := 9 }] }
              state := CPState.W_RESPONSE
              reply_expected_packets := 1
              reply_received_packets := 1
              timer := true }]
          pending_server_pairs := []
          takenC := [0], takenS := [], nextId := 1 }
        { hdr := { magic := 204, header_size := 8, type_policy := 16,
                   flags := 192, rid := 9, p_order := 1 }
          payload := [1, 2, 3] }
        11 { ip := 7, port := 8 } { ip := 0, port := 55 }).map (fun x => x.2)
      = some [Event.DisarmTimer, Event.SuccessCb [[9], [1, 2, 3]]] := by
  decide

/-- Claim C7 (amended): a duplicate response packet arriving after
`success_cb` but before `recv_resp_done` is not dropped: the pair is still
in the pending-client list, so the packet is processed as a response
fragment; in particular a duplicate first-and-last packet with
`p_order = 1` re-invokes `success_cb` on the grown reply chain, and the
pair remains in the pending list. -/
theorem claim_C7 (st : Engine) (pkt : Packet) (len : Nat)
    (source local_host : HostTuple) (cp : ClientPair)
    (hfind : find_in_pending_client_pairs st pkt.hdr.rid local_host = some cp)
    (hstate : cp.state = CPState.W_RESPONSE)
    (hf : is_first pkt.hdr) (hl : is_last pkt.hdr)
    (hp : pkt.hdr.p_order = 1) :
    ∃ st' ev, handle_response st pkt len source local_host = some (st', ev) ∧
      Event.SuccessCb (prepare_to_app_iovec
        { cp.reply with
          sender := source
          bufs := cp.reply.bufs ++ [packetBuf pkt len] }) ∈ ev ∧
      ∃ c ∈ st'.pending_client_pairs, c.id = cp.id := by
  have hmem : cp ∈ st.pending_client_pairs :=
    List.mem_of_find?_eq_some hfind
  refine ⟨update_pending_client_pair st
      { cp with
        reply := { cp.reply with
          sender := source
          bufs := cp.reply.bufs ++ [packetBuf pkt len] }
        reply_expected_packets := pkt.hdr.p_order
        reply_received_packets := 1 },
    (if cp.timer then [Event.DisarmTimer] else []) ++
      [Event.SuccessCb (prepare_to_app_iovec
        { cp.reply with
          sender := source
          bufs := cp.reply.bufs ++ [packetBuf pkt len] })],
    ?_, ?_, ?_⟩
  · simp only [handle_response, hfind]
    simp [hstate, hf, hl, hp]
  · simp
  · refine ⟨{ cp with
      reply := { cp.reply with
        sender := source
        bufs := cp.reply.bufs ++ [packetBuf pkt len] }
      reply_expected_packets := pkt.hdr.p_order
      reply_received_packets := 1 }, ?_, rfl⟩
    simp only [update_pending_client_pair, List.mem_map]
    exact ⟨cp, hmem, by simp⟩

theorem claim_C7_witness :
    ∃ st' ev, handle_response
        { pending_client_pairs := [
            { id := 0
              request := { sender := { ip := 0, port := 55 }, req_id := 9
                           bufs := [] }
              reply := { sender := { ip := 7, port := 8 }, req_id := 0
                         bufs := [
                           { hdr := { magic := 204, header_size := 8,
                                      type_policy := 16, flags := 192,
                                      rid := 9, p_order := 1 }
                             data := [4], psize := 9 }] }
              state := CPState.W_RESPONSE
              reply_expected_packets := 1
              reply_received_packets := 1
              timer := false }]
          pending_server_pairs := []
          takenC := [0], takenS := [], nextId := 1 }
        { hdr := { magic := 204, header_size := 8, type_policy := 16,
                   flags := 192, rid := 9, p_order := 1 }
          payload := [5, 6] }
        10 { ip := 7, port := 8 } { ip := 0, port := 55 } = some (st', ev) ∧
      Event.SuccessCb (prepare_to_app_iovec
        { sender := { ip := 7, port := 8 }
          req_id := 0
          bufs := [
            { hdr := { magic := 204, header_size := 8, type_policy := 16,
                       flags := 192, rid := 9, p_order := 1 }
              data := [4], psize := 9 },
            packetBuf
              { hdr := { magic := 204, header_size := 8, type_policy := 16,
                         flags := 192, rid := 9, p_order := 1 }
                payload := [5, 6] } 10] }) ∈ ev ∧
      ∃ c ∈ st'.pending_client_pairs, c.id = 0 :=
  claim_C7
    { pending_client_pairs := [
        { id := 0
          request := { sender := { ip := 0, port := 55 }, req_id := 9
                       bufs := [] }
          reply := { sender := { ip := 7, port := 8 }, req_id := 0
                     bufs := [
                       { hdr := { magic := 204, header_size := 8,
                                  type_policy := 16, flags := 192,
                                  rid := 9, p_order := 1 }
                         data := [4], psize := 9 }] }
          state := CPState.W_RESPONSE
          reply_expected_packets := 1
          reply_received_packets := 1
          timer := false }]
      pending_server_pairs := []
      takenC := [0], takenS := [], nextId := 1 }
    { hdr := { magic := 204, header_size := 8, type_policy := 16,
               flags := 192, rid := 9, p_order := 1 }
      payload := [5, 6] }
    10 { ip := 7, port := 8 } { ip := 0, port := 55 }
    { id := 0
      request := { sender := { ip := 0, port := 55 }, req_id := 9
                   bufs := [] }
      reply := { sender := { ip := 7, port := 8 }, req_id := 0
                 bufs := [
                   { hdr := { magic := 204, header_size := 8,
                              type_policy := 16, flags := 192,
                              rid := 9, p_order := 1 }
                     data := [4], psize := 9 }] }
      state := CPState.W_RESPONSE
      reply_expected_packets := 1
      reply_received_packets := 1
      timer := false }
    (by decide) (by decide) (by decide) (by decide) (by decide)

theorem freed_client_props (st : Engine) (cpX : ClientPair) :
    (∀ c ∈ (free_client_pair (remove_from_pending_client_pairs st cpX)
        cpX).pending_client_pairs, c.id ≠ cpX.id) ∧
    cpX.id ∉ (free_client_pair (remove_from_pending_client_pairs st cpX)
        cpX).takenC := by
  constructor
  · intro c hc
    simp only [free_client_pair, remove_from_pending_client_pairs,
      List.mem_filter] at hc
    simpa using hc.2
  · simp [free_client_pair, remove_from_pending_client_pairs,
      List.mem_filter]

/-- Claim C3: for a pending client pair in `W_RESPONSE`, a non-first
response packet whose `p_order` differs from `reply_received_packets`
(checked before the post-increment), or a last packet after which the
received count does not equal the expected count, makes `handle_response`
invoke `error_cb(arg, -1)` exactly once, unlink the pair from the
pending-client list and free it. -/
theorem claim_C3 (st : Engine) (pkt : Packet) (len : Nat)
    (source local_host : HostTuple) (cp : ClientPair)
    (hfind : find_in_pending_client_pairs st pkt.hdr.rid local_host = some cp)
    (hstate : cp.state = CPState.W_RESPONSE) :
    ((¬ is_first pkt.hdr ∧ pkt.hdr.p_order ≠ cp.reply_received_packets) →
      ∃ st' ev, handle_response st pkt len source local_host
          = some (st', ev) ∧
        ev.count (Event.ErrorCb (-1)) = 1 ∧
        (∀ c ∈ st'.pending_client_pairs, c.id ≠ cp.id) ∧
        cp.id ∉ st'.takenC) ∧
    ((is_last pkt.hdr ∧
      (is_first pkt.hdr ∨ pkt.hdr.p_order = cp.reply_received_packets) ∧
      (if is_first pkt.hdr then (1 : Nat)
       else cp.reply_received_packets + 1)
        ≠ (if is_first pkt.hdr then pkt.hdr.p_order
           else cp.reply_expected_packets)) →
      ∃ st' ev, handle_response st pkt len source local_host
          = some (st', ev) ∧
        ev.count (Event.ErrorCb (-1)) = 1 ∧
        (∀ c ∈ st'.pending_client_pairs, c.id ≠ cp.id) ∧
        cp.id ∉ st'.takenC) := by
  constructor
  · rintro ⟨hnf, hne⟩
    refine ⟨free_client_pair (remove_from_pending_client_pairs st
        { cp with reply := { cp.reply with
            sender := source
            bufs := cp.reply.bufs ++ [packetBuf pkt len] } })
        { cp with reply := { cp.reply with
            sender := source
            bufs := cp.reply.bufs ++ [packetBuf pkt len] } },
      [Event.ErrorCb (-1)], ?_, by simp, ?_, ?_⟩
    · simp only [handle_response, hfind]
      simp [hstate, hnf, hne]
    · exact (freed_client_props st _).1
    · exact (freed_client_props st _).2
  · rintro ⟨hl, hok, hmis⟩
    by_cases hf : is_first pkt.hdr
    · rw [if_pos hf, if_pos hf] at hmis
      refine ⟨free_client_pair (remove_from_pending_client_pairs st
          { cp with
            reply := { cp.reply with
              sender := source
              bufs := cp.reply.bufs ++ [packetBuf pkt len] }
            reply_expected_packets := pkt.hdr.p_order
            reply_received_packets := 1 })
          { cp with
            reply := { cp.reply with
              sender := source
              bufs := cp.reply.bufs ++ [packetBuf pkt len] }
            reply_expected_packets := pkt.hdr.p_order
            reply_received_packets := 1 },
        (if cp.timer then [Event.DisarmTimer] else [])
          ++ [Event.ErrorCb (-1)], ?_, ?_, ?_, ?_⟩
      · simp only [handle_response, hfind]
        simp [hstate, hf, hl, hmis]
      · cases ht : cp.timer <;> simp [List.count_cons, List.count_append]
      · exact (freed_client_props st _).1
      · exact (freed_client_props st _).2
    · rw [if_neg hf, if_neg hf] at hmis
      have hpo : pkt.hdr.p_order = cp.reply_received_packets := by
        rcases hok with hok | hok
        · exact absurd hok hf
        · exact hok
      refine ⟨free_client_pair (remove_from_pending_client_pairs st
          { cp with
            reply := { cp.reply with
              sender := source
              bufs := cp.reply.bufs ++ [packetBuf pkt len] }
            reply_received_packets := cp.reply_received_packets + 1 })
          { cp with
            reply := { cp.reply with
              sender := source
              bufs := cp.reply.bufs ++ [packetBuf pkt len] }
            reply_received_packets := cp.reply_received_packets + 1 },
        (if cp.timer then [Event.DisarmTimer] else [])
          ++ [Event.ErrorCb (-1)], ?_, ?_, ?_, ?_⟩
      · simp only [handle_response, hfind]
        simp [hstate, hf, hl, hpo, hmis]
      · cases ht : cp.timer <;> simp [List.count_cons, List.count_append]
      · exact (freed_client_props st _).1
      · exact (freed_client_props st _).2

theorem claim_C3_witness :
    ∃ st' ev, handle_response
        { pending_client_pairs := [
            { id := 0
              request := { sender := { ip := 0, port := 55 }, req_id := 9
                           bufs := [] }
              reply := { sender := { ip := 0, port := 0 }, req_id := 0
                         bufs := [] }
              state := CPState.W_RESPONSE
              reply_expected_packets := 3
              reply_received_packets := 1
              timer := true }]
          pending_server_pairs := []
          takenC := [0], takenS := [], nextId := 1 }
        { hdr := { magic := 204, header_size := 8, type_policy := 16,
                   flags := 0, rid := 9, p_order := 2 }
          payload := [1] }
        9 { ip := 7, port := 8 } { ip := 0, port := 55 } = some (st', ev) ∧
      ev.count (Event.ErrorCb (-1)) = 1 ∧
      (∀ c ∈ st'.pending_client_pairs, c.id ≠ 0) ∧
      (0 : Nat) ∉ st'.takenC :=
  (claim_C3
    { pending_client_pairs := [
        { id := 0
          request := { sender := { ip := 0, port := 55 }, req_id := 9
                       bufs := [] }
          reply := { sender := { ip := 0, port := 0 }, req_id := 0
                     bufs := [] }
          state := CPState.W_RESPONSE
          reply_expected_packets := 3
          reply_received_packets := 1
          timer := true }]
      pending_server_pairs := []
      takenC := [0], takenS := [], nextId := 1 }
    { hdr := { magic := 204, header_size := 8, type_policy := 16,
               flags := 0, rid := 9, p_order := 2 }
      payload := [1] }
    9 { ip := 7, port := 8 } { ip := 0, port := 55 }
    { id := 0
      request := { sender := { ip := 0, port := 55 }, req_id := 9
                   bufs := [] }
      reply := { sender := { ip := 0, port := 0 }, req_id := 0, bufs := [] }
      state := CPState.W_RESPONSE
      reply_expected_packets := 3
      reply_received_packets := 1
      timer := true }
    (by decide) (by decide)).1 ⟨by decide, by decide⟩

/-- Claim C5, counterexample to the claim as stated: run a complete
two-packet request through `handle_request`.  After the last packet the
request is fully reassembled and delivered to the receive callback
(`RecvFn`), yet the server pair is still in the pending-server list with
`request_received_packets = request_expected_packets = 2` — it is not
removed on delivery, contradicting the claimed iff. -/
theorem claim_C5_counterexample :
    ((handle_request
        { pending_client_pairs := [], pending_server_pairs := []
          takenC := [], takenS := [], nextId := 0 }
        { hdr := { magic := 204, header_size := 8, type_policy := 0,
                   flags := 128, rid := 5, p_order := 2 }
          payload := [1] }
        9 { ip := 3, port := 4 }).bind
      (fun x => handle_request x.1
        { hdr := { magic := 204, header_size := 8, type_policy := 0,
                   flags := 64, rid := 5, p_order := 1 }
          payload := [2] }
        9 { ip := 3, port := 4 })).map
      (fun x => (x.2, x.1.pending_server_pairs.map
        (fun sp => (sp.request_received_packets,
                    sp.request_expected_packets))))
      = some ([Event.RecvFn [[1], [2]]], [(2, 2)]) := by
  decide

/-- Claim C5 (amended): a server pair enters the pending-server list only
on the first packet of a multi-packet request, and it is not removed when
the completed request is delivered to the receive callback — it remains
in the list (and allocated) until `r2p2_send_response` unlinks and frees
it; a single-packet request never enters the list. -/
theorem claim_C5 :
    (∀ (st : Engine) (pkt : Packet) (len : Nat) (source : HostTuple)
        (sp : ServerPair),
      find_in_pending_server_pairs st pkt.hdr.rid source = some sp →
      ¬ is_first pkt.hdr → is_last pkt.hdr →
      pkt.hdr.p_order = sp.request_received_packets →
      sp.request_received_packets + 1 = sp.request_expected_packets →
      ∃ st' ev, handle_request st pkt len source = some (st', ev) ∧
        (∃ iovs, Event.RecvFn iovs ∈ ev) ∧
        ∃ c ∈ st'.pending_server_pairs, c.id = sp.id) ∧
    (∀ (st : Engine) (pkt : Packet) (len : Nat) (source : HostTuple),
      is_first pkt.hdr → is_last pkt.hdr →
      ∀ res, handle_request st pkt len source = some res →
        ∀ c ∈ res.1.pending_server_pairs, c ∈ st.pending_server_pairs) ∧
    (∀ (st : Engine) (sp : ServerPair) (iov : List (List Nat)),
      iov ≠ [] →
      ∃ st' ev, r2p2_send_response st sp iov = some (st', ev) ∧
        (∀ c ∈ st'.pending_server_pairs, c.id ≠ sp.id) ∧
        sp.id ∉ st'.takenS) := by
  refine ⟨?_, ?_, ?_⟩
  · intro st pkt len source sp hfind hnf hl hpo hcnt
    have hmem : sp ∈ st.pending_server_pairs :=
      List.mem_of_find?_eq_some hfind
    refine ⟨update_pending_server_pair st
        { sp with
          request_received_packets := sp.request_received_packets + 1
          request := { sp.request with
            bufs := sp.request.bufs ++ [packetBuf pkt len] } },
      [Event.RecvFn (prepare_to_app_iovec
        { sp.request with
          bufs := sp.request.bufs ++ [packetBuf pkt len] })], ?_, ?_, ?_⟩
    · simp only [handle_request, hfind]
      simp [hnf, hl, hpo, ← hcnt]
    · exact ⟨_, List.mem_singleton_self _⟩
    · refine ⟨{ sp with
        request_received_packets := sp.request_received_packets + 1
        request := { sp.request with
          bufs := sp.request.bufs ++ [packetBuf pkt len] } }, ?_, rfl⟩
      simp only [update_pending_server_pair, List.mem_map]
      exact ⟨sp, hmem, by simp⟩
  · intro st pkt len source hf hl res hres c hc
    simp only [handle_request, hf, hl] at hres
    simp only [alloc_server_pair, if_pos, if_neg, is_last] at hres
    rw [if_neg (by simpa [is_last] using hl)] at hres
    split at hres
    · simp only [Option.some.injEq] at hres
      subst hres
      simp only [free_server_pair, remove_from_pending_server_pairs,
        List.mem_filter] at hc
      exact hc.1
    · simp only [Option.some.injEq] at hres
      subst hres
      exact hc
  · intro st sp iov hne
    have hs := r2p2_prepare_msg_isSome iov RESPONSE_MSG FIXED_ROUTE
      sp.request.req_id hne
    obtain ⟨m, hm⟩ := Option.isSome_iff_exists.mp hs
    refine ⟨free_server_pair (remove_from_pending_server_pairs st sp) sp,
      [Event.SendList m.bufs sp.request.sender, Event.RouterNotify],
      ?_, ?_, ?_⟩
    · simp only [r2p2_send_response, hm]
    · intro c hc
      simp only [free_server_pair, remove_from_pending_server_pairs,
        List.mem_filter] at hc
      simpa using hc.2
    · simp [free_server_pair, remove_from_pending_server_pairs,
        List.mem_filter]

theorem claim_C5_witness :
    (∃ st' ev, handle_request
        { pending_client_pairs := []
          pending_server_pairs := [
            { id := 0
              request := {
                sender := { ip := 3, port := 4 }, req_id := 5,
                bufs := [
                  { hdr := { magic := 204, header_size := 8,
                             type_policy := 0, flags := 128, rid := 5,
                             p_order := 2 }
                    data := [1], psize := 9 }] }
              reply := { sender := { ip := 0, port := 0 }, req_id := 0
                         bufs := [] }
              request_expected_packets := 2
              request_received_packets := 1 }]
          takenC := [], takenS := [0], nextId := 1 }
        { hdr := { magic := 204, header_size := 8, type_policy := 0,
                   flags := 64, rid := 5, p_order := 1 }
          payload := [2] }
        9 { ip := 3, port := 4 } = some (st', ev) ∧
      (∃ iovs, Event.RecvFn iovs ∈ ev) ∧
      ∃ c ∈ st'.pending_server_pairs, c.id = 0) ∧
    (∀ c ∈ (({ pending_client_pairs := [], pending_server_pairs := []
               takenC := [], takenS := [0], nextId := 1 } : Engine),
            [Event.RecvFn [[1]]]).1.pending_server_pairs,
      c ∈ ({ pending_client_pairs := [], pending_server_pairs := []
             takenC := [], takenS := [], nextId := 0 } :
             Engine).pending_server_pairs) ∧
    (∃ st' ev, r2p2_send_response
        { pending_client_pairs := []
          pending_server_pairs := [
            { id := 0
              request := { sender := { ip := 3, port := 4 }, req_id := 5
                           bufs := [] }
              reply := { sender := { ip := 0, port := 0 }, req_id := 0
                         bufs := [] }
              request_expected_packets := 1
              request_received_packets := 1 }]
          takenC := [], takenS := [0], nextId := 1 }
        { id := 0
          request := { sender := { ip := 3, port := 4 }, req_id := 5
                       bufs := [] }
          reply := { sender := { ip := 0, port := 0 }, req_id := 0
                     bufs := [] }
          request_expected_packets := 1
          request_received_packets := 1 }
        [[2]] = some (st', ev) ∧
      (∀ c ∈ st'.pending_server_pairs, c.id ≠ 0) ∧
      (0 : Nat) ∉ st'.takenS) :=
  ⟨claim_C5.1
    { pending_client_pairs := []
      pending_server_pairs := [
        { id := 0
          request := {
            sender := { ip := 3, port := 4 }, req_id := 5,
            bufs := [
              { hdr := { magic := 204, header_size := 8,
                         type_policy := 0, flags := 128, rid := 5,
                         p_order := 2 }
                data := [1], psize := 9 }] }
          reply := { sender := { ip := 0, port := 0 }, req_id := 0
                     bufs := [] }
          request_expected_packets := 2
          request_received_packets := 1 }]
      takenC := [], takenS := [0], nextId := 1 }
    { hdr := { magic := 204, header_size := 8, type_policy := 0,
               flags := 64, rid := 5, p_order := 1 }
      payload := [2] }
    9 { ip := 3, port := 4 }
    { id := 0
      request := {
        sender := { ip := 3, port := 4 }, req_id := 5,
        bufs := [
          { hdr := { magic := 204, header_size := 8,
                     type_policy := 0, flags := 128, rid := 5,
                     p_order := 2 }
            data := [1], psize := 9 }] }
      reply := { sender := { ip := 0, port := 0 }, req_id := 0, bufs := [] }
      request_expected_packets := 2
      request_received_packets := 1 }
    (by decide) (by decide) (by decide) (by decide) (by decide),
   claim_C5.2.1
    { pending_client_pairs := [], pending_server_pairs := []
      takenC := [], takenS := [], nextId := 0 }
    { hdr := { magic := 204, header_size := 8, type_policy := 0,
               flags := 192, rid := 7, p_order := 1 }
      payload := [1] }
    9 { ip := 3, port := 4 } (by decide) (by decide)
    ({ pending_client_pairs := [], pending_server_pairs := []
       takenC := [], takenS := [0], nextId := 1 }, [Event.RecvFn [[1]]])
    (by decide),
   claim_C5.2.2
    { pending_client_pairs := []
      pending_server_pairs := [
        { id := 0
          request := { sender := { ip := 3, port := 4 }, req_id := 5
                       bufs := [] }
          reply := { sender := { ip := 0, port := 0 }, req_id := 0
                     bufs := [] }
          request_expected_packets := 1
          request_received_packets := 1 }]
      takenC := [], takenS := [0], nextId := 1 }
    { id := 0
      request := { sender := { ip := 3, port := 4 }, req_id := 5
                   bufs := [] }
      reply := { sender := { ip := 0, port := 0 }, req_id := 0, bufs := [] }
      request_expected_packets := 1
      request_received_packets := 1 }
    [[2]] (by decide)⟩

theorem r2p2_prepare_msg_some_ne_nil (iov : List (List Nat)) (t p r : Nat)
    (m : R2p2Msg) (hm : r2p2_prepare_msg iov t p r = some m) :
    m.bufs ≠ [] := by
  rw [r2p2_prepare_msg] at hm
  unfold prepFinish at hm
  cases hg : (fillAll (prepInit iov t p r) iov).cur with
  | none => rw [hg] at hm; exact absurd hm (by simp)
  | some g =>
    rw [hg] at hm
    simp only [Option.some.injEq] at hm
    apply List.ne_nil_of_length_pos
    rw [← hm]
    simp only [patchTail_length, patchHead_length]
    simp

/-- Claim C8, counterexample to the claim as stated: sending the
two-entry vector of the C1 counterexample (exactly `PAYLOAD_SIZE` bytes
followed by an empty entry) leaves the new pending client pair in `W_ACK`
— the assembled request spans two buffers — although the total payload
does not exceed `PAYLOAD_SIZE`, refuting the claimed equivalence between
`W_ACK` and `total payload > PAYLOAD_SIZE`. -/
theorem claim_C8_counterexample :
    r2p2_send_req
        { pending_client_pairs := [], pending_server_pairs := []
          takenC := [], takenS := [], nextId := 0 }
        [List.replicate 1400 7, []] 0
        { ip := 1, port := 2 } { ip := 3, port := 4 } 5 true
      = some
        ({ pending_client_pairs := [
             { id := 0
               request := {
                 sender := { ip := 3, port := 4 }, req_id := 5,
                 bufs := [
                   { hdr := { magic := 204, header_size := 8,
                              type_policy := 0, flags := 128, rid := 5,
                              p_order := 2 }
                     data := List.replicate 1400 7, psize := 264 },
                   { hdr := { magic := 204, header_size := 8,
                              type_policy := 0, flags := 64, rid := 5,
                              p_order := 1 }
                     data := [], psize := 8 }] }
               reply := { sender := { ip := 0, port := 0 }, req_id := 0
                          bufs := [] }
               state := CPState.W_ACK
               reply_expected_packets := 0
               reply_received_packets := 0
               timer := true }]
           pending_server_pairs := []
           takenC := [0], takenS := [], nextId := 1 },
         [Event.SendList
           [{ hdr := { magic := 204, header_size := 8, type_policy := 0,
                       flags := 128, rid := 5, p_order := 2 }
              data := List.replicate 1400 7, psize := 264 }]
           { ip := 1, port := 2 }]) ∧
    ([List.replicate 1400 7, ([] : List Nat)].map List.length).sum
      ≤ PAYLOAD_SIZE := by
  constructor
  · simp only [r2p2_send_req, alloc_client_pair, prepare_cex_eval]
    simp [add_to_pending_client_pairs]
  · simp [PAYLOAD_SIZE, -List.reduceReplicate]

/-- Claim C8 (amended: the parenthetical equivalence with
`total payload > PAYLOAD_SIZE` additionally requires every iovec entry to
be nonempty — the counterexample shows a vector with an empty entry whose
pair sits in `W_ACK` with total payload `= PAYLOAD_SIZE`).  After
`r2p2_send_req`, the new pair is at the head of the pending-client list,
the rest of the list is unchanged, and the pair's state is `W_ACK` iff
the assembled request spans more than one buffer; with nonempty entries
that is equivalent to the total payload exceeding `PAYLOAD_SIZE`;
otherwise the state is `W_RESPONSE`. -/
theorem claim_C8 (st : Engine) (iov : List (List Nat)) (pol : Nat)
    (dest lep : HostTuple) (rid : Nat) (st' : Engine) (ev : List Event)
    (h : r2p2_send_req st iov pol dest lep rid true = some (st', ev)) :
    ∃ cp, st'.pending_client_pairs = cp :: st.pending_client_pairs ∧
      (cp.state = CPState.W_ACK ↔ 1 < cp.request.bufs.length) ∧
      (cp.state ≠ CPState.W_ACK → cp.state = CPState.W_RESPONSE) ∧
      ((∀ e ∈ iov, e ≠ []) →
        (cp.state = CPState.W_ACK ↔
          PAYLOAD_SIZE < (iov.map List.length).sum)) := by
  simp only [r2p2_send_req, alloc_client_pair, not_true, ite_false,
    if_false] at h
  cases hm : r2p2_prepare_msg iov REQUEST_MSG pol rid with
  | none => rw [hm] at h; exact absurd h (by simp)
  | some m =>
    rw [hm] at h
    simp only [add_to_pending_client_pairs, Option.some.injEq,
      Prod.mk.injEq] at h
    obtain ⟨hst, _⟩ := h
    have hne : m.bufs ≠ [] :=
      r2p2_prepare_msg_some_ne_nil iov REQUEST_MSG pol rid m hm
    have hpos : 0 < m.bufs.length := List.length_pos.mpr hne
    refine ⟨{ id := st.nextId
              request := { sender := lep, req_id := m.req_id, bufs := m.bufs }
              reply := { sender := { ip := 0, port := 0 }, req_id := 0
                         bufs := [] }
              state := if m.bufs.length = 1 then CPState.W_RESPONSE
                       else CPState.W_ACK
              reply_expected_packets := 0
              reply_received_packets := 0
              timer := true }, ?_, ?_, ?_, ?_⟩
    · rw [← hst]
    · by_cases h1 : m.bufs.length = 1
      · simp [h1]
      · simp only [h1, ite_false, if_false]
        constructor
        · intro _; omega
        · intro _; trivial
    · by_cases h1 : m.bufs.length = 1
      · intro _; simp [h1]
      · intro hcon
        exact absurd (by simp [h1]) hcon
    · intro hall
      have hiovne : iov ≠ [] := by
        intro hnil
        subst hnil
        rw [r2p2_prepare_msg_nil] at hm
        exact absurd hm (by simp)
      obtain ⟨m2, hm2, _, hiff, _⟩ :=
        r2p2_prepare_msg_spec iov REQUEST_MSG pol rid hiovne hall
      rw [hm] at hm2
      have hmm : m2 = m := by
        simpa using hm2.symm
      subst hmm
      by_cases h1 : m2.bufs.length = 1
      · have := hiff.mp h1
        simp only [h1, ite_true, if_pos]
        constructor
        · intro hco; exact absurd hco (by simp)
        · intro hco; omega
      · have : ¬ (iov.map List.length).sum ≤ PAYLOAD_SIZE := fun hc =>
          h1 (hiff.mpr hc)
        simp only [h1, ite_false, if_false]
        constructor
        · intro _; omega
        · intro _; trivial

theorem single_send_req_eval :
    r2p2_send_req
        { pending_client_pairs := [], pending_server_pairs := []
          takenC := [], takenS := [], nextId := 0 }
        [[1, 2]] 0 { ip := 1, port := 2 } { ip := 3, port := 4 } 8 true
      = some
        ({ pending_client_pairs := [
             { id := 0
               request := {
                 sender := { ip := 3, port := 4 }, req_id := 8,
                 bufs := [
                   { hdr := { magic := 204, header_size := 8,
                              type_policy := 0, flags := 192, rid := 8,
                              p_order := 1 }
                     data := [1, 2], psize := 10 }] }
               reply := { sender := { ip := 0, port := 0 }, req_id := 0
                          bufs := [] }
               state := CPState.W_RESPONSE
               reply_expected_packets := 0
               reply_received_packets := 0
               timer := true }]
           pending_server_pairs := []
           takenC := [0], takenS := [], nextId := 1 },
         [Event.SendList
           [{ hdr := { magic := 204, header_size := 8, type_policy := 0,
                       flags := 192, rid := 8, p_order := 1 }
              data := [1, 2], psize := 10 }]
           { ip := 1, port := 2 }]) := by
  decide

theorem claim_C8_witness :
    ∃ cp,
      ({ pending_client_pairs := [
           { id := 0
             request := {
               sender := { ip := 3, port := 4 }, req_id := 8,
               bufs := [
                 { hdr := { magic := 204, header_size := 8,
                            type_policy := 0, flags := 192, rid := 8,
                            p_order := 1 }
                   data := [1, 2], psize := 10 }] }
             reply := { sender := { ip := 0, port := 0 }, req_id := 0
                        bufs := [] }
             state := CPState.W_RESPONSE
             reply_expected_packets := 0
             reply_received_packets := 0
             timer := true }]
         pending_server_pairs := []
         takenC := [0], takenS := [], nextId := 1 } : Engine).pending_client_pairs
        = cp :: ({ pending_client_pairs := [], pending_server_pairs := []
                   takenC := [], takenS := [], nextId := 0 } :
                   Engine).pending_client_pairs ∧
      (cp.state = CPState.W_ACK ↔ 1 < cp.request.bufs.length) ∧
      (cp.state ≠ CPState.W_ACK → cp.state = CPState.W_RESPONSE) ∧
      ((∀ e ∈ [[1, 2]], e ≠ ([] : List Nat)) →
        (cp.state = CPState.W_ACK ↔
          PAYLOAD_SIZE < (([[1, 2]] : List (List Nat)).map List.length).sum)) :=
  claim_C8
    { pending_client_pairs := [], pending_server_pairs := []
      takenC := [], takenS := [], nextId := 0 }
    [[1, 2]] 0 { ip := 1, port := 2 } { ip := 3, port := 4 } 8 _ _
    single_send_req_eval

example :
    (r2p2_prepare_msg [[1, 2, 3]] REQUEST_MSG 0 7).map msgPayload
      = some [1, 2, 3] := by decide

example :
    (r2p2_prepare_msg [[1], [2, 3], [4]] REQUEST_MSG 0 7).map msgPayload
      = some [1, 2, 3, 4] := by decide

example : r2p2_prepare_msg [] REQUEST_MSG 0 7 = none := by decide

end R2p2
